import Mathlib

/-!
# Wardex evaluation engine — shallow embedding and verification

This file embeds the core of the Wardex security mediator
(`packages/core`: middleware pipeline, risk aggregation, tier resolution,
policy engine, shield orchestrator; `packages/signer`: approval tokens)
as executable Lean definitions, and proves or refutes the specification
claims about it.

Modelling conventions:
* JavaScript `number` score/USD arithmetic is modelled over `ℚ`
  (exact rationals; float rounding is outside the model).
* JavaScript `bigint` is modelled as `ℤ`, `BigInt(string)` as an
  `Option ℤ`-returning parser (`none` models a thrown `SyntaxError`).
* Calldata hex strings are modelled as `List Char`; other strings as
  `String`.
* A thrown exception escaping a middleware is modelled by `Except String`.
* `Date.now()`, `new Date().toISOString()`, `crypto.randomUUID()` and
  `new Date().toDateString()` are modelled as explicit parameters.
* The regexes of the injection-pattern catalog are modelled by an
  abstract match oracle `regexTest : String → String → Bool`
  (pattern source, input); no claim in scope depends on which strings a
  given regex matches.
-/

namespace Wardex

/- The Batteries rational-number operations are marked `irreducible`,
which blocks `decide`-style evaluation of concrete score arithmetic.
Re-marking them `semireducible` restores definitional evaluation; kernel
checking is unaffected. -/

set_option allowUnsafeReducibility true in
attribute [semireducible] Rat.add

set_option allowUnsafeReducibility true in
attribute [semireducible] Rat.mul

set_option allowUnsafeReducibility true in
attribute [semireducible] Rat.sub

set_option allowUnsafeReducibility true in
attribute [semireducible] Rat.div

set_option allowUnsafeReducibility true in
attribute [semireducible] Rat.inv

/-! ## Enumerations of the data model (packages/core/src/types.ts) -/

/-- Severity of a `SecurityReason`. -/
inductive Severity
  | info
  | low
  | medium
  | high
  | critical
  deriving DecidableEq, Repr

/-- Producing source of a `SecurityReason`. -/
inductive ReasonSource
  | context
  | transaction
  | address
  | contract
  | behavioral
  | policy
  deriving DecidableEq, Repr

/-- An immutable security finding. -/
structure SecurityReason where
  code : String
  message : String
  severity : Severity
  source : ReasonSource
  deriving DecidableEq, Repr

/-- Verdict decision. -/
inductive Decision
  | approve
  | advise
  | block
  | freeze
  deriving DecidableEq, Repr

/-- `requiredAction` of a verdict. -/
inductive RequiredAction
  | noAction
  | humanApproval
  | delay
  deriving DecidableEq, Repr

/-- Enforcement mode of a security tier. -/
inductive TierMode
  | audit
  | copilot
  | guardian
  | fortress
  deriving DecidableEq, Repr

/-- The four risk scores (JS numbers, modelled as `ℚ`). -/
structure RiskScore where
  context : ℚ
  transaction : ℚ
  behavioral : ℚ
  composite : ℚ
  deriving DecidableEq, Repr

/-! ## Character / hex / JS-number utilities -/

/-- Hexadecimal digit test (the character class `[0-9a-fA-F]`). -/
def isHexDigit (c : Char) : Bool :=
  c ∈ "0123456789abcdefABCDEF".data

/-- Decimal digit test (the character class `[0-9]`). -/
def isDecDigit (c : Char) : Bool :=
  c ∈ "0123456789".data

/-- ASCII lowercasing of one character, as done by `String.toLowerCase`. -/
def jsCharLower (c : Char) : Char :=
  if 'A' ≤ c ∧ c ≤ 'Z' then Char.ofNat (c.toNat + 32) else c

/-- Lowercase hex digit alphabet. -/
def hexLowerChars : List Char :=
  "0123456789abcdef".data

/-- Value of a hexadecimal digit (case-insensitive; 0 for other
characters, which the parsers reject beforehand). -/
def hexVal (c : Char) : ℕ :=
  (hexLowerChars.indexOf (jsCharLower c)) % 16

/-- Parse a big-endian hex digit list into a natural number. -/
def parseHexNat (l : List Char) : ℕ :=
  l.foldl (fun a c => 16 * a + hexVal c) 0

/-- Parse a big-endian decimal digit list into a natural number. -/
def parseDecNat (l : List Char) : ℕ :=
  l.foldl (fun a c => 10 * a + (c.toNat - '0'.toNat)) 0

/-- JS whitespace stripped by `BigInt(string)` (the common subset). -/
def isJsWS (c : Char) : Bool :=
  c = ' ' ∨ c = '\t' ∨ c = '\n' ∨ c = '\r'

/-- Strip leading and trailing whitespace. -/
def trimWS (l : List Char) : List Char :=
  ((l.dropWhile isJsWS).reverse.dropWhile isJsWS).reverse

/-- Digits of a natural number, binary through hexadecimal branches used
below share this helper: parse a nonempty all-`pred` digit list with the
given digit valuation, or fail. -/
def parseDigits? (pred : Char → Bool) (val : Char → ℕ) (base : ℕ)
    (l : List Char) : Option ℕ :=
  if l ≠ [] ∧ l.all pred then
    some (l.foldl (fun a c => base * a + val c) 0)
  else
    none

/-- `BigInt(string)`: models the ECMAScript `StringToBigInt` conversion.
`none` models a thrown `SyntaxError`. Whitespace is trimmed; the empty
string is `0n`; `0x`/`0X`, `0o`/`0O`, `0b`/`0B` prefixes take an unsigned
digit string; otherwise an optionally signed decimal digit string. -/
def jsBigIntL? (l : List Char) : Option ℤ :=
  match trimWS l with
  | [] => some 0
  | '0' :: 'x' :: rest => (parseDigits? isHexDigit hexVal 16 rest).map Int.ofNat
  | '0' :: 'X' :: rest => (parseDigits? isHexDigit hexVal 16 rest).map Int.ofNat
  | '0' :: 'o' :: rest =>
      (parseDigits? (fun c => c ∈ ['0','1','2','3','4','5','6','7'])
        (fun c => c.toNat - '0'.toNat) 8 rest).map Int.ofNat
  | '0' :: 'O' :: rest =>
      (parseDigits? (fun c => c ∈ ['0','1','2','3','4','5','6','7'])
        (fun c => c.toNat - '0'.toNat) 8 rest).map Int.ofNat
  | '0' :: 'b' :: rest =>
      (parseDigits? (fun c => c ∈ ['0','1'])
        (fun c => c.toNat - '0'.toNat) 2 rest).map Int.ofNat
  | '0' :: 'B' :: rest =>
      (parseDigits? (fun c => c ∈ ['0','1'])
        (fun c => c.toNat - '0'.toNat) 2 rest).map Int.ofNat
  | '+' :: rest =>
      (parseDigits? isDecDigit (fun c => c.toNat - '0'.toNat) 10 rest).map Int.ofNat
  | '-' :: rest =>
      (parseDigits? isDecDigit (fun c => c.toNat - '0'.toNat) 10 rest).map
        (fun n => -(Int.ofNat n))
  | other =>
      (parseDigits? isDecDigit (fun c => c.toNat - '0'.toNat) 10 other).map Int.ofNat

/-- `BigInt` on a Lean `String`. -/
def jsBigInt? (s : String) : Option ℤ :=
  jsBigIntL? s.data

/-- `Math.round` on an exact rational: round half toward `+∞`, i.e.
`⌊q + 1/2⌋`, written in the executable `num / den` form so that concrete
inputs evaluate (see `jsRound_eq_floor`). -/
def jsRound (q : ℚ) : ℤ :=
  (q + 1 / 2).num / ((q + 1 / 2).den : ℤ)

/-- `jsRound` is the half-up rounding `⌊q + 1/2⌋`. -/
theorem jsRound_eq_floor (q : ℚ) : jsRound q = ⌊q + 1 / 2⌋ := by
  rw [jsRound, Rat.floor_def]

/-- `Math.max(0, Math.min(100, x))` over `ℤ`. -/
def clamp0100 (x : ℤ) : ℤ :=
  max 0 (min 100 x)

/-- `address.toLowerCase()` on a Lean `String`. -/
def jsToLower (s : String) : String :=
  ⟨s.data.map jsCharLower⟩

/-! ## Transaction and conversation data (types.ts) -/

/-- A `TransactionRequest`. `value` and `data` keep their raw string form
because the source parses/validates them lazily (`data` as a character
list; see the modelling conventions). The source field `to` is spelled
`toAddr` because `to` is a reserved token in Lean. -/
structure TransactionRequest where
  toAddr : String
  value : Option String := none
  data : Option (List Char) := none
  chainId : ℤ := 1
  deriving DecidableEq, Repr

/-- One conversation message. -/
structure ConvMessage where
  role : String
  content : String
  deriving DecidableEq, Repr

/-- Source descriptor of a conversation. -/
structure ConvSource where
  type : String
  identifier : String
  trustLevel : String
  deriving DecidableEq, Repr

/-- One tool call of a tool-call chain. -/
structure ToolCall where
  tool : String
  output : Option String := none
  deriving DecidableEq, Repr

/-- A `ConversationContext`. -/
structure ConversationContext where
  messages : List ConvMessage
  source : ConvSource
  toolCallChain : Option (List ToolCall) := none
  deriving DecidableEq, Repr

/-! ## Policy data (types.ts) -/

/-- Triggers of a security tier. -/
structure TierTriggers where
  minValueAtRiskUsd : Option ℚ := none
  maxValueAtRiskUsd : Option ℚ := none
  targetAddresses : Option (List String) := none
  functionSignatures : Option (List String) := none
  deriving DecidableEq, Repr

/-- Enforcement settings of a security tier. -/
structure TierEnforcement where
  mode : TierMode
  blockThreshold : ℚ
  requireHumanApproval : Bool := false
  notifyOperator : Bool := false
  requireOnChainProof : Bool := false
  timeLockSeconds : Option ℕ := none
  deriving DecidableEq, Repr

/-- A `SecurityTierConfig`. -/
structure SecurityTierConfig where
  id : String
  name : String
  triggers : TierTriggers
  enforcement : TierEnforcement
  deriving DecidableEq, Repr

/-- Policy allowlists. -/
structure Allowlists where
  addresses : List String := []
  contracts : List String := []
  protocols : List String := []
  deriving DecidableEq, Repr

/-- Policy denylists. -/
structure Denylists where
  addresses : List String := []
  patterns : List String := []
  deriving DecidableEq, Repr

/-- Global limits; the wei bounds are decimal strings in the source and
parsed with `BigInt` at use sites. -/
structure GlobalLimits where
  maxTransactionValueWei : String
  maxDailyVolumeWei : String
  maxApprovalAmountWei : String
  maxGasPriceGwei : ℚ
  deriving DecidableEq, Repr

/-- Behavioral-analysis configuration. -/
structure BehavioralConfig where
  enabled : Bool
  learningPeriodDays : ℕ
  sensitivityLevel : String
  deriving DecidableEq, Repr

/-- Context-analysis configuration. -/
structure ContextAnalysisConfig where
  enablePromptInjectionDetection : Bool := true
  enableCoherenceChecking : Bool := true
  suspiciousPatterns : List String := []
  enableEscalationDetection : Bool := true
  enableSourceVerification : Bool := true
  deriving DecidableEq, Repr

/-- A `SecurityPolicy`. -/
structure SecurityPolicy where
  tiers : List SecurityTierConfig
  allowlists : Allowlists
  denylists : Denylists
  limits : GlobalLimits
  behavioral : BehavioralConfig
  contextAnalysis : ContextAnalysisConfig
  deriving DecidableEq, Repr

/-! ## Decoded transactions and verdicts -/

/-- Decoded parameter record. The source stores a per-case plain object;
all fields are optional here, mirroring property absence. An `amount` is
kept in its `'0x' + hex` string form as in the source. -/
structure DecodedParams where
  spender : Option String := none
  operator : Option String := none
  approved : Option Bool := none
  sendTo : Option String := none
  sendFrom : Option String := none
  amount : Option (List Char) := none
  deriving DecidableEq, Repr

/-- A `DecodedTransaction` (the `raw` back-pointer is omitted: the
transaction is already part of the evaluation context). -/
structure DecodedTransaction where
  functionName : Option String := none
  parameters : Option DecodedParams := none
  isApproval : Bool := false
  isTransfer : Bool := false
  involvesEth : Bool := false
  estimatedValueUsd : ℚ := 0
  deriving DecidableEq, Repr

/-- A `SecurityVerdict`. -/
structure SecurityVerdict where
  decision : Decision
  riskScore : RiskScore
  reasons : List SecurityReason
  suggestions : List String
  requiredAction : RequiredAction
  delaySeconds : Option ℕ := none
  timestamp : String
  evaluationId : String
  tierId : String
  deriving DecidableEq, Repr

/-- An `AuditEntry`. -/
structure AuditEntry where
  evaluationId : String
  timestamp : String
  transaction : TransactionRequest
  verdict : SecurityVerdict
  contextSummary : Option String := none
  executed : Bool
  deriving DecidableEq, Repr

/-- Address reputation supplied by the intelligence provider. -/
structure AddressReputation where
  ageDays : ℤ
  transactionCount : ℤ
  riskFactors : List String
  labels : List String
  deriving DecidableEq, Repr

/-- Partially populated risk scores inside the middleware context. -/
structure PartialScores where
  context : Option ℚ := none
  transaction : Option ℚ := none
  behavioral : Option ℚ := none
  composite : Option ℚ := none
  deriving DecidableEq, Repr

/-- One escalation-tracker sample (`{ valueUsd, timestamp }`). -/
structure EscSample where
  valueUsd : ℚ
  timestamp : ℕ
  deriving DecidableEq, Repr

/-- The `MiddlewareContext` threaded through the pipeline. -/
structure EvalCtx where
  transaction : TransactionRequest
  conversationContext : Option ConversationContext := none
  policy : SecurityPolicy
  riskScores : PartialScores := {}
  reasons : List SecurityReason := []
  tier : Option SecurityTierConfig := none
  decoded : Option DecodedTransaction := none
  addressReputation : Option AddressReputation := none
  verdict : Option SecurityVerdict := none
  deriving DecidableEq, Repr

/-! ## Transaction decoder middleware
(packages/core/src/middleware/transaction-decoder.ts) -/

/-- A `KNOWN_SELECTORS` table entry. -/
structure SelectorInfo where
  name : String
  signature : String
  deriving DecidableEq, Repr

/-- The fixed table of well-known function selectors. -/
def KNOWN_SELECTORS : List (List Char × SelectorInfo) :=
  [ ("0xa9059cbb".data, ⟨"transfer", "transfer(address,uint256)"⟩),
    ("0x23b872dd".data, ⟨"transferFrom", "transferFrom(address,address,uint256)"⟩),
    ("0x095ea7b3".data, ⟨"approve", "approve(address,uint256)"⟩),
    ("0x42842e0e".data, ⟨"safeTransferFrom", "safeTransferFrom(address,address,uint256)"⟩),
    ("0xb88d4fde".data, ⟨"safeTransferFrom", "safeTransferFrom(address,address,uint256,bytes)"⟩),
    ("0xa22cb465".data, ⟨"setApprovalForAll", "setApprovalForAll(address,bool)"⟩),
    ("0x38ed1739".data, ⟨"swapExactTokensForTokens", "swapExactTokensForTokens(uint256,uint256,address[],address,uint256)"⟩),
    ("0x7ff36ab5".data, ⟨"swapExactETHForTokens", "swapExactETHForTokens(uint256,address[],address,uint256)"⟩),
    ("0x18cbafe5".data, ⟨"swapExactTokensForETH", "swapExactTokensForETH(uint256,uint256,address[],address,uint256)"⟩),
    ("0x5ae401dc".data, ⟨"multicall", "multicall(uint256,bytes[])"⟩),
    ("0xac9650d8".data, ⟨"multicall", "multicall(bytes[])"⟩),
    ("0x1fad948c".data, ⟨"handleOps", "handleOps(PackedUserOperation[],address)"⟩),
    ("0x00000000".data, ⟨"fallback", "fallback()"⟩) ]

/-- `MAX_UINT256` as a 64-character hex string. -/
def MAX_UINT256 : List Char :=
  List.replicate 64 'f'

/-- `decodeSelector`: the first ten characters of the calldata, lowercased,
looked up in the selector table; `null` for short data. -/
def decodeSelector (data : List Char) : Option SelectorInfo :=
  if data.length < 10 then none
  else KNOWN_SELECTORS.lookup ((data.take 10).map jsCharLower)

/-- `decodeAddress`: `'0x' + param.slice(24).toLowerCase()`. -/
def decodeAddress (param : List Char) : String :=
  "0x" ++ String.mk ((param.drop 24).map jsCharLower)

/-- `decodeUint256`: `BigInt('0x' + param)`; `none` models the throw. -/
def decodeUint256 (param : List Char) : Option ℤ :=
  jsBigIntL? ('0' :: 'x' :: param)

/-- `amountHex.replace(/^0x/, '')`. -/
def strip0x (l : List Char) : List Char :=
  match l with
  | '0' :: 'x' :: rest => rest
  | other => other

/-- `isInfiniteApproval`: max uint256, or any value above `2^128`;
a `BigInt` parse failure is caught and yields `false`. -/
def isInfiniteApproval (amountHex : List Char) : Bool :=
  let cleaned := (strip0x amountHex).map jsCharLower
  if cleaned = MAX_UINT256 then true
  else
    match jsBigIntL? ('0' :: 'x' :: cleaned) with
    | some value => value > 2 ^ 128
    | none => false

/-- Structural worker for `chunk64` (the fuel keeps the recursion
definitionally reducible; it never runs out for `fuel ≥ l.length`). -/
def chunk64Aux : ℕ → List Char → List (List Char)
  | 0, _ => []
  | fuel + 1, l =>
    match l with
    | [] => []
    | c :: cs => (c :: cs).take 64 :: chunk64Aux fuel ((c :: cs).drop 64)

/-- Split the post-selector calldata into 32-byte (64-character) chunks. -/
def chunk64 (l : List Char) : List (List Char) :=
  chunk64Aux l.length l

/-- `extractParams`: chunks after the 4-byte selector. -/
def extractParams (data : List Char) : List (List Char) :=
  if data.length ≤ 10 then [] else chunk64 (data.drop 10)

/-- The `transactionDecoder` middleware. An `Except.error` models an
exception escaping the stage (a failed `BigInt` conversion). -/
def transactionDecoder (ctx : EvalCtx) : Except String EvalCtx := do
  let data := ctx.transaction.data.getD []
  let txWei ←
    match jsBigInt? (ctx.transaction.value.getD "0") with
    | some v => pure v
    | none => throw "SyntaxError: Cannot convert transaction value to a BigInt"
  let decoded0 : DecodedTransaction :=
    { isApproval := false, isTransfer := false,
      involvesEth := txWei > 0, estimatedValueUsd := 0 }
  let selectorInfo := decodeSelector data
  let decoded1 :=
    match selectorInfo with
    | some si => { decoded0 with functionName := some si.name }
    | none => decoded0
  let params := extractParams data
  let (decoded2, reasons2) ←
    match selectorInfo with
    | none => pure (decoded1, ctx.reasons)
    | some si =>
      if si.name = "approve" then
        let d := { decoded1 with isApproval := true }
        match params with
        | p0 :: p1 :: _ =>
          let spender := decodeAddress p0
          let amount := p1
          let d := { d with parameters := some { spender := some spender,
                                                 amount := some ('0' :: 'x' :: amount) } }
          if isInfiniteApproval amount then
            pure (d, ctx.reasons ++
              [{ code := "INFINITE_APPROVAL",
                 message := "Infinite token approval detected for spender " ++ spender ++
                   ". This allows the spender to drain all tokens of this type from the wallet.",
                 severity := .critical, source := .transaction }])
          else
            pure (d, ctx.reasons)
        | _ => pure (d, ctx.reasons)
      else if si.name = "setApprovalForAll" then
        let d := { decoded1 with isApproval := true }
        match params with
        | p0 :: p1 :: _ =>
          let operator := decodeAddress p0
          let approvedVal ←
            match decodeUint256 p1 with
            | some v => pure v
            | none => throw "SyntaxError: Cannot convert parameter to a BigInt"
          let approved := approvedVal ≠ 0
          let d := { d with parameters := some { operator := some operator,
                                                 approved := some approved } }
          if approved then
            pure (d, ctx.reasons ++
              [{ code := "SET_APPROVAL_FOR_ALL",
                 message := "setApprovalForAll grants " ++ operator ++
                   " control over ALL NFTs in this collection.",
                 severity := .high, source := .transaction }])
          else
            pure (d, ctx.reasons)
        | _ => pure (d, ctx.reasons)
      else if si.name = "transfer" then
        let d := { decoded1 with isTransfer := true }
        match params with
        | p0 :: p1 :: _ =>
          pure ({ d with parameters := some { sendTo := some (decodeAddress p0),
                                              amount := some ('0' :: 'x' :: p1) } },
                ctx.reasons)
        | _ => pure (d, ctx.reasons)
      else if si.name = "transferFrom" then
        let d := { decoded1 with isTransfer := true }
        match params with
        | p0 :: p1 :: p2 :: _ =>
          pure ({ d with parameters := some { sendFrom := some (decodeAddress p0),
                                              sendTo := some (decodeAddress p1),
                                              amount := some ('0' :: 'x' :: p2) } },
                ctx.reasons)
        | _ => pure (d, ctx.reasons)
      else if si.name = "multicall" then
        pure (decoded1, ctx.reasons ++
          [{ code := "MULTICALL_DETECTED",
             message := "Transaction uses multicall - individual operations cannot be fully analyzed in this version",
             severity := .medium, source := .transaction }])
      else
        pure (decoded1, ctx.reasons)
  -- Plain ETH transfer: empty calldata to a non-empty target address
  let decoded3 :=
    if (data = [] ∨ data = "0x".data) ∧ ctx.transaction.toAddr ≠ "" then
      { decoded2 with isTransfer := true, involvesEth := true }
    else decoded2
  -- ETH sent along with a contract call
  let reasons3 :=
    if decoded3.involvesEth ∧ data ≠ [] ∧ data ≠ "0x".data ∧ data.length > 2 then
      reasons2 ++
        [{ code := "ETH_WITH_CALLDATA",
           message := "Transaction sends ETH along with a contract call - verify this is intentional",
           severity := .low, source := .transaction }]
    else reasons2
  pure { ctx with decoded := some decoded3, reasons := reasons3 }

/-! ## Value assessor middleware
(`createValueAssessor`, concatenated in `src/unnamed/part_005`) -/

/-- `DEFAULT_ETH_PRICE_USD`. -/
def DEFAULT_ETH_PRICE_USD : ℚ := 3500

/-- The `createValueAssessor` middleware. `ethPriceUsd` and
`tokenPricesUsd` are the configuration captured by the closure; the shield
constructs it with no configuration (`createValueAssessor()`), giving the
defaults `3500` and the empty map. The `ctx.metadata.estimatedValueUsd`
mirror write is not modelled (no modelled stage reads it). -/
def createValueAssessor (ethPriceUsd : ℚ) (tokenPricesUsd : List (String × ℚ))
    (ctx : EvalCtx) : Except String EvalCtx := do
  let weiValue ←
    match jsBigInt? (ctx.transaction.value.getD "0") with
    | some v => pure v
    | none => throw "SyntaxError: Cannot convert transaction value to a BigInt"
  -- 1. ETH value at the configured price
  let est0 : ℚ :=
    if weiValue > 0 then (weiValue : ℚ) / 10 ^ 18 * ethPriceUsd else 0
  -- 2. Token value for approvals and transfers
  match ctx.decoded with
  | none => pure ctx
  | some d =>
    let target := jsToLower ctx.transaction.toAddr
    let est1 : ℚ :=
      match d.isApproval, d.parameters.bind (·.amount) with
      | true, some amount =>
        match jsBigIntL? amount with
        | some amountBig =>
          if amountBig > 2 ^ 128 then
            -- conservative: a drained wallet is assumed worth up to $100K
            max est0 100000
          else if target ≠ "" ∧ (tokenPricesUsd.lookup target).isSome then
            est0 + (amountBig : ℚ) / 10 ^ 18 * ((tokenPricesUsd.lookup target).getD 0)
          else est0
        | none => max est0 1000
      | _, _ => est0
    let est2 : ℚ :=
      match d.isTransfer, d.parameters.bind (·.amount) with
      | true, some amount =>
        if target ≠ "" ∧ (tokenPricesUsd.lookup target).isSome then
          match jsBigIntL? amount with
          | some amountBig =>
            est1 + (amountBig : ℚ) / 10 ^ 18 * ((tokenPricesUsd.lookup target).getD 0)
          | none => max est1 100
        else est1
      | _, _ => est1
    pure { ctx with decoded := some { d with estimatedValueUsd := est2 } }

/-- The value assessor exactly as the shield instantiates it. -/
def shieldValueAssessor (ctx : EvalCtx) : Except String EvalCtx :=
  createValueAssessor DEFAULT_ETH_PRICE_USD [] ctx

/-! ## Address checker middleware
(`createAddressChecker`, concatenated in `src/unnamed/part_004`) -/

/-- `normalizeAddress`: lowercase with a `0x` prefix. -/
def normalizeAddress (address : String) : String :=
  if (jsToLower address).startsWith "0x" then jsToLower address
  else "0x" ++ jsToLower address

/-- Severity weights of the address score accumulation (`info` adds 0:
the switch has no case for it). -/
def addressSeverityWeight : Severity → ℚ
  | .critical => 50
  | .high => 25
  | .medium => 15
  | .low => 5
  | .info => 0

/-- The reputation provider as seen by the middleware: a call either
throws (`Except.error`), returns `null` (`none`), or returns data. -/
def ReputationProvider : Type :=
  String → ℤ → Except String (Option AddressReputation)

/-- The `createAddressChecker` middleware. Provider exceptions are caught
inside the stage, so it never throws. The shield without an intelligence
configuration passes no provider (`none`). -/
def createAddressChecker (getReputation : Option ReputationProvider)
    (ctx : EvalCtx) : EvalCtx :=
  if ctx.transaction.toAddr = "" then
    -- contract-creation transaction: flag and return early (no score update)
    { ctx with reasons := ctx.reasons ++
        [{ code := "CONTRACT_CREATION",
           message := "Transaction creates a new contract. Ensure this is intentional.",
           severity := .medium, source := .address }] }
  else
    let target := normalizeAddress ctx.transaction.toAddr
    -- 1. denylist
    let isDenied := ctx.policy.denylists.addresses.any
      (fun addr => normalizeAddress addr = target)
    let reasons1 :=
      if isDenied then
        ctx.reasons ++
          [{ code := "DENYLISTED_ADDRESS",
             message := "Target address " ++ target ++ " is on the denylist",
             severity := .critical, source := .address }]
      else ctx.reasons
    -- 2. allowlist
    let isAllowed :=
      ctx.policy.allowlists.addresses.any (fun addr => normalizeAddress addr = target) ∨
      ctx.policy.allowlists.contracts.any (fun addr => normalizeAddress addr = target)
    -- 3. reputation (when a provider is configured)
    let (reasons2, rep) : List SecurityReason × Option AddressReputation :=
      match getReputation with
      | none => (reasons1, ctx.addressReputation)
      | some f =>
        match f target ctx.transaction.chainId with
        | .error _ =>
          (reasons1 ++
            [{ code := "INTELLIGENCE_UNAVAILABLE",
               message := "Could not fetch address reputation - intelligence layer unavailable",
               severity := .info, source := .address }], ctx.addressReputation)
        | .ok none => (reasons1, ctx.addressReputation)
        | .ok (some reputation) =>
          let r1 :=
            if reputation.ageDays < 7 then
              reasons1 ++
                [{ code := "NEW_ADDRESS",
                   message := "Target address is only " ++ toString reputation.ageDays ++
                     " day(s) old",
                   severity := .medium, source := .address }]
            else reasons1
          let r2 :=
            if reputation.transactionCount < 5 ∧ ¬isAllowed then
              r1 ++
                [{ code := "LOW_ACTIVITY_ADDRESS",
                   message := "Target address has only " ++
                     toString reputation.transactionCount ++ " transactions",
                   severity := .low, source := .address }]
            else r1
          let r3 := r2 ++ reputation.riskFactors.map (fun factor =>
            { code := "ADDRESS_RISK_FACTOR", message := factor,
              severity := .high, source := .address })
          (r3, some reputation)
    -- 4. address risk score
    let addressReasons := reasons2.filter (fun r => r.source = .address)
    let addressScore : ℚ :=
      if isDenied then 100
      else if isAllowed then 0
      else addressReasons.foldl (fun a r => a + addressSeverityWeight r.severity) 0
    { ctx with
        reasons := reasons2,
        addressReputation := rep,
        riskScores := { ctx.riskScores with
          transaction := some (min 100 ((ctx.riskScores.transaction.getD 0) + addressScore)) } }

/-! ## Contract checker middleware
(`createContractChecker`, concatenated in `src/unnamed/part_004`) -/

/-- A provider-supplied dangerous contract pattern. -/
structure ContractPattern where
  name : String
  description : String
  severity : Severity
  deriving DecidableEq, Repr

/-- A `ContractAnalysis` from the intelligence layer. -/
structure ContractAnalysis where
  hasSelfDestruct : Bool
  hasUnsafeDelegatecall : Bool
  isVerified : Bool
  isProxy : Bool
  implementationAddress : Option String := none
  allowsInfiniteApproval : Bool
  risk : String
  dangerousPatterns : List ContractPattern
  deriving DecidableEq, Repr

/-- The contract-analysis provider: may throw, return `null`, or data. -/
def AnalysisProvider : Type :=
  String → ℤ → Except String (Option ContractAnalysis)

/-- Severity weights of the contract score accumulation. -/
def contractSeverityWeight : Severity → ℚ
  | .critical => 40
  | .high => 25
  | .medium => 10
  | .low => 5
  | .info => 0

/-- The `createContractChecker` middleware. Without a provider it is a
pass-through. The eager `hasValue` computation can throw on a malformed
value string (modelled by the `Except.error`), mirroring the source; the
provider call itself is wrapped in try/catch. -/
def createContractChecker (getContractAnalysis : Option AnalysisProvider)
    (ctx : EvalCtx) : Except String EvalCtx := do
  match getContractAnalysis with
  | none => pure ctx
  | some f =>
    if ctx.transaction.toAddr = "" then pure ctx
    else
      let hasCalldata :=
        ctx.transaction.data.isSome ∧ ctx.transaction.data ≠ some "0x".data ∧
          ctx.transaction.data ≠ some []
      let _hasValue ←
        match ctx.transaction.value with
        | none => pure false
        | some s =>
          if s = "" then pure false
          else
            match jsBigInt? s with
            | some v => pure (decide (v > 0))
            | none => throw "SyntaxError: Cannot convert transaction value to a BigInt"
      if ¬hasCalldata ∧
          ¬((ctx.addressReputation.map (·.labels)).getD []).contains "contract" then
        pure ctx
      else
        match f ctx.transaction.toAddr ctx.transaction.chainId with
        | .error _ =>
          pure { ctx with reasons := ctx.reasons ++
            [{ code := "CONTRACT_ANALYSIS_UNAVAILABLE",
               message := "Could not analyze target contract - intelligence layer unavailable",
               severity := .info, source := .contract }] }
        | .ok none => pure ctx
        | .ok (some analysis) =>
          let rs : List SecurityReason :=
            (if analysis.hasSelfDestruct then
              [{ code := "CONTRACT_SELFDESTRUCT",
                 message := "Target contract contains SELFDESTRUCT opcode - can be destroyed, potentially losing funds",
                 severity := .critical, source := .contract }] else []) ++
            (if analysis.hasUnsafeDelegatecall ∧ ¬analysis.isVerified then
              [{ code := "CONTRACT_UNSAFE_DELEGATECALL",
                 message := "Unverified contract uses DELEGATECALL - can execute arbitrary code",
                 severity := .high, source := .contract }] else []) ++
            (if analysis.isProxy ∧ ¬analysis.isVerified then
              [{ code := "CONTRACT_UNVERIFIED_PROXY",
                 message := "Contract is a proxy (implementation: " ++
                   (analysis.implementationAddress.getD "unknown") ++
                   ") and source is not verified",
                 severity := .high, source := .contract }] else []) ++
            (if ¬analysis.isVerified ∧ analysis.risk ≠ "safe" then
              [{ code := "CONTRACT_UNVERIFIED",
                 message := "Contract source code is not verified on block explorer",
                 severity := .medium, source := .contract }] else []) ++
            (if analysis.allowsInfiniteApproval ∧
                ((ctx.decoded.map (·.isApproval)).getD false) then
              [{ code := "CONTRACT_ALLOWS_INFINITE_APPROVAL",
                 message := "Contract supports unlimited token approvals - ensure amount is limited",
                 severity := .medium, source := .contract }] else []) ++
            analysis.dangerousPatterns.map (fun pattern =>
              { code := "CONTRACT_PATTERN_" ++ pattern.name,
                message := pattern.description,
                severity := pattern.severity, source := .contract })
          let contractScore : ℚ :=
            rs.foldl (fun a r => a + contractSeverityWeight r.severity) 0
          -- (the `ctx.contractAnalysis` store is write-only downstream and
          -- is not modelled as a context field)
          pure { ctx with
            reasons := ctx.reasons ++ rs,
            riskScores := { ctx.riskScores with
              transaction := some (min 100
                ((ctx.riskScores.transaction.getD 0) + contractScore)) } }

/-! ## Context analyzer middleware
(`createContextAnalyzer`, concatenated in `src/unnamed/part_004`)

The ten regexes of the injection catalog are kept as their source
strings; whether a given regex matches a given input is delegated to an
abstract match oracle `regexTest` (see the modelling conventions). -/

/-- One entry of `INJECTION_PATTERNS`. -/
structure InjPattern where
  name : String
  pattern : String
  severity : Severity
  description : String
  deriving DecidableEq, Repr

/-- The canonical injection-pattern catalog. -/
def INJECTION_PATTERNS : List InjPattern :=
  [ ⟨"IGNORE_INSTRUCTIONS",
     "ignore\\s+(all\\s+)?(previous|prior|above|earlier)\\s+(instructions|rules|guidelines|constraints)",
     .critical, "Attempt to override system instructions"⟩,
    ⟨"ROLE_OVERRIDE",
     "you\\s+are\\s+(now|actually|really)\\s+(a|an|the)\\s+",
     .high, "Attempt to redefine the AI agent role"⟩,
    ⟨"SYSTEM_PROMPT_INJECTION",
     "\\[?\\s*(system|admin|developer|root)\\s*(message|prompt|instruction|override)\\s*[\\]:]?",
     .critical, "Fake system message injection"⟩,
    ⟨"JAILBREAK_PATTERN",
     "(DAN|do\\s+anything\\s+now|developer\\s+mode|unrestricted\\s+mode)",
     .critical, "Known jailbreak technique"⟩,
    ⟨"BASE64_INSTRUCTION",
     "(?:execute|run|decode|eval)\\s*(?:this|the)?\\s*(?:base64|encoded)\\s*(?:instruction|command|payload)",
     .high, "Attempt to smuggle instructions via encoding"⟩,
    ⟨"HIDDEN_INSTRUCTION_MARKER",
     "(?:<!--.*?-->|<\\s*(?:script|style)[^>]*>.*?<\\/\\s*(?:script|style)\\s*>)",
     .high, "Hidden instructions in HTML/markdown comments"⟩,
    ⟨"URGENCY_MANIPULATION",
     "(?:immediately|urgently|right\\s+now|emergency|time-sensitive)\\s+(?:send|transfer|approve|sign)",
     .medium, "Urgency-based social engineering"⟩,
    ⟨"AUTHORIZATION_CLAIM",
     "(?:authorized|approved|permitted|allowed)\\s+(?:by\\s+(?:the\\s+)?(?:admin|owner|user|operator))",
     .high, "False authorization claim in content"⟩,
    ⟨"SEED_PHRASE_REQUEST",
     "(?:share|give|send|tell|show|reveal|display|output|print)\\s+(?:me\\s+)?(?:your\\s+)?(?:seed\\s+phrase|mnemonic|private\\s+key|secret\\s+key|recovery\\s+phrase)",
     .critical, "Explicit request for key material"⟩,
    ⟨"REDIRECT_FUNDS",
     "(?:send|transfer|forward|redirect)\\s+(?:all|remaining|the)?\\s*(?:funds|tokens|eth|balance|assets)\\s+(?:to|into)",
     .high, "Broad fund redirection instruction"⟩ ]

/-- `ESCALATION_WINDOW_MS` (30 minutes). -/
def ESCALATION_WINDOW_MS : ℕ := 30 * 60 * 1000

/-- `ESCALATION_THRESHOLD` (5×). -/
def ESCALATION_THRESHOLD : ℚ := 5

/-- `detectEscalation`: prune samples older than the window, append the
current sample, and compare the newest against the oldest surviving one.
Returns the optional finding and the updated tracker. (The human-readable
ratio/minutes formatting of the message is simplified.) -/
def detectEscalation (tracker : List EscSample) (currentValueUsd : ℚ)
    (now : ℕ) : Option SecurityReason × List EscSample :=
  let kept := tracker.filter (fun t => (now : ℤ) - (t.timestamp : ℤ) < (ESCALATION_WINDOW_MS : ℤ))
  let t2 := kept ++ [⟨currentValueUsd, now⟩]
  if t2.length < 2 then (none, t2)
  else
    match t2.head?, t2.getLast? with
    | some oldest, some newest =>
      if oldest.valueUsd > 0 ∧ newest.valueUsd / oldest.valueUsd ≥ ESCALATION_THRESHOLD then
        (some { code := "VALUE_ESCALATION",
                message := "Transaction value escalated suspiciously fast within the rolling window",
                severity := .high, source := .context }, t2)
      else (none, t2)
    | _, _ => (none, t2)

/-- `evaluateSource`: trust-level and source-type findings plus the
cross-MCP scan over tool outputs (first matching pattern per tool call). -/
def evaluateSource (regexTest : String → String → Bool)
    (context : ConversationContext) : List SecurityReason :=
  (if context.source.trustLevel = "untrusted" then
    [{ code := "UNTRUSTED_SOURCE",
       message := "Transaction originated from untrusted source: " ++
         context.source.identifier,
       severity := .critical, source := .context }]
  else []) ++
  (if context.source.type = "unknown" then
    [{ code := "UNKNOWN_SOURCE",
       message := "Transaction source could not be identified",
       severity := .high, source := .context }]
  else []) ++
  ((context.toolCallChain.getD []).filterMap (fun call =>
    match call.output with
    | none => none
    | some output =>
      match INJECTION_PATTERNS.find? (fun p => regexTest p.pattern output) with
      | some p =>
        some { code := "CROSS_MCP_INJECTION",
               message := "Tool \x22" ++ call.tool ++
                 "\x22 output contains suspicious instruction: " ++ p.name,
               severity := .critical, source := .context }
      | none => none))

/-- JS `String.prototype.includes` (contiguous substring). -/
def jsIncludes (s sub : String) : Bool :=
  decide (sub.data <:+: s.data)

/-- The crypto-domain keyword list of the coherence heuristic. -/
def cryptoTerms : List String :=
  [ "send", "transfer", "swap", "trade", "approve", "token", "eth",
    "wallet", "contract", "defi", "uniswap", "aave", "pool", "liquidity",
    "stake", "bridge", "mint", "burn", "withdraw", "deposit", "exchange",
    "price", "buy", "sell", "gas", "nft", "erc20", "erc721" ]

/-- `checkCoherence`: flag when no crypto keyword occurs in the last five
messages. -/
def checkCoherence (context : ConversationContext) : Option SecurityReason :=
  if context.messages = [] then none
  else
    let recentMessages := context.messages.drop (context.messages.length - 5)
    let conversationText :=
      jsToLower (String.intercalate " " (recentMessages.map (·.content)))
    let hasCryptoContext := cryptoTerms.any (fun term => jsIncludes conversationText term)
    if ¬hasCryptoContext then
      some { code := "INCOHERENT_CONTEXT",
             message := "Transaction request does not match recent conversation context - no crypto-related discussion detected",
             severity := .medium, source := .context }
    else none

/-- Severity weights of the context score. -/
def contextSeverityWeight : Severity → ℚ
  | .critical => 40
  | .high => 25
  | .medium => 15
  | .low => 5
  | .info => 0

/-- The `createContextAnalyzer` middleware. `regexTest` is the abstract
regex oracle, `now` models `Date.now()`, and the escalation tracker (held
by the closure in the source) is threaded explicitly. -/
def createContextAnalyzer (regexTest : String → String → Bool) (now : ℕ)
    (tracker : List EscSample) (ctx : EvalCtx) : EvalCtx × List EscSample :=
  match ctx.conversationContext with
  | none => (ctx, tracker)
  | some cc =>
    let config := ctx.policy.contextAnalysis
    -- 1. prompt-injection detection (catalog, then custom patterns)
    let reasons1 :=
      if config.enablePromptInjectionDetection then
        (ctx.reasons ++
          cc.messages.flatMap (fun message =>
            (INJECTION_PATTERNS.filter (fun p => regexTest p.pattern message.content)).map
              (fun p =>
                { code := "INJECTION_" ++ p.name,
                  message := "Prompt injection detected: " ++ p.description,
                  severity := p.severity, source := .context }))) ++
          config.suspiciousPatterns.flatMap (fun customPattern =>
            (cc.messages.filter (fun m => regexTest customPattern m.content)).map
              (fun _ =>
                { code := "CUSTOM_PATTERN_MATCH",
                  message := "Custom suspicious pattern matched: " ++ customPattern,
                  severity := .medium, source := .context }))
      else ctx.reasons
    -- 2. source verification
    let reasons2 :=
      if config.enableSourceVerification then
        reasons1 ++ evaluateSource regexTest cc
      else reasons1
    -- 3. coherence checking
    let reasons3 :=
      if config.enableCoherenceChecking then
        match checkCoherence cc with
        | some r => reasons2 ++ [r]
        | none => reasons2
      else reasons2
    -- 4. escalation detection — only when `ctx.decoded` is already set
    let (reasons4, tracker') :=
      if config.enableEscalationDetection ∧ ctx.decoded.isSome then
        match detectEscalation tracker
            ((ctx.decoded.map (·.estimatedValueUsd)).getD 0) now with
        | (some r, t') => (reasons3 ++ [r], t')
        | (none, t') => (reasons3, t')
      else (reasons3, tracker)
    -- context risk score
    let contextReasons := reasons4.filter (fun r => r.source = .context)
    let contextScore : ℚ :=
      contextReasons.foldl (fun a r => a + contextSeverityWeight r.severity) 0
    ({ ctx with
        reasons := reasons4,
        riskScores := { ctx.riskScores with context := some (min 100 contextScore) } },
     tracker')

/-! ## Behavioral comparator middleware

Modelled from the spec: `behavioral-comparator.ts` is not under `src/`
(only its construction in `shield.ts` is). Per spec §4.2.6 it emits
value-anomaly, new-contract, frequency-anomaly and timing-anomaly
findings (source `behavioral`) and contributes the behavioral risk
score; the concrete baselines are abstracted into a model parameter. -/

/-- Abstract model of the behavioral comparator stage: which findings it
emits and which behavioral score it assigns for a given context, with the
spec-mandated constraints on the findings' source and codes. -/
structure BehavioralModel where
  findings : EvalCtx → List SecurityReason
  score : EvalCtx → Option ℚ
  findings_source : ∀ ctx r, r ∈ findings ctx → r.source = ReasonSource.behavioral
  findings_codes : ∀ ctx r, r ∈ findings ctx →
    r.code ∈ ["VALUE_ANOMALY", "NEW_CONTRACT_INTERACTION",
              "FREQUENCY_ANOMALY", "TIMING_ANOMALY"]

/-- Modelled from the spec: the behavioral comparator appends its findings
and records the behavioral score. -/
def behavioralComparator (m : BehavioralModel) (ctx : EvalCtx) : EvalCtx :=
  { ctx with
      reasons := ctx.reasons ++ m.findings ctx,
      riskScores := { ctx.riskScores with
        behavioral := match m.score ctx with
                      | some q => some q
                      | none => ctx.riskScores.behavioral } }

/-! ## Risk aggregator middleware and tier resolution
(packages/core/src/middleware/policy-engine.ts, `riskAggregator` /
`determineTier`) -/

/-- The sort key: `tier.triggers.minValueAtRiskUsd ?? 0`. -/
def tierMin (t : SecurityTierConfig) : ℚ :=
  t.triggers.minValueAtRiskUsd.getD 0

/-- Stable insertion into a descending-`tierMin` list: an (earlier)
element goes before every strictly smaller key and before equal keys,
matching the stable `Array.prototype.sort` with comparator
`(a, b) => b.min - a.min`. -/
def insertByMinDesc (x : SecurityTierConfig) :
    List SecurityTierConfig → List SecurityTierConfig
  | [] => [x]
  | h :: t => if tierMin h ≤ tierMin x then x :: h :: t else h :: insertByMinDesc x t

/-- `[...policy.tiers].sort((a, b) => (b.min ?? 0) - (a.min ?? 0))`. -/
def sortByMinDesc (l : List SecurityTierConfig) : List SecurityTierConfig :=
  l.foldr insertByMinDesc []

/-- A tier's address trigger test (`triggers.targetAddresses` listed and
the — truthy — target address among them, case-insensitively). -/
def tierMatchesAddress (tier : SecurityTierConfig) (targetAddress : String) : Bool :=
  match tier.triggers.targetAddresses with
  | none => false
  | some addrs =>
    targetAddress ≠ "" && addrs.any (fun a => jsToLower a = jsToLower targetAddress)

/-- A tier's function-signature trigger test. -/
def tierMatchesFunction (tier : SecurityTierConfig)
    (functionSignature : Option String) : Bool :=
  match tier.triggers.functionSignatures, functionSignature with
  | some sigs, some f => f ≠ "" && sigs.contains f
  | _, _ => false

/-- A tier's value-range test: `min ≤ value < max` with `min ?? 0` and
`max ?? Infinity`. -/
def tierMatchesValue (tier : SecurityTierConfig) (estimatedValueUsd : ℚ) : Bool :=
  estimatedValueUsd ≥ tier.triggers.minValueAtRiskUsd.getD 0 &&
    (match tier.triggers.maxValueAtRiskUsd with
     | none => true
     | some maxValue => estimatedValueUsd < maxValue)

/-- The `for (const tier of sortedTiers)` loop body of `determineTier`:
within each tier, address triggers, then function-signature triggers,
then the value range. -/
def findTierLoop (estimatedValueUsd : ℚ) (targetAddress : String)
    (functionSignature : Option String) :
    List SecurityTierConfig → Option SecurityTierConfig
  | [] => none
  | tier :: rest =>
    if tierMatchesAddress tier targetAddress then some tier
    else if tierMatchesFunction tier functionSignature then some tier
    else if tierMatchesValue tier estimatedValueUsd then some tier
    else findTierLoop estimatedValueUsd targetAddress functionSignature rest

/-- `determineTier`: scan the descending-min sorted tiers; fall back to the
last sorted tier (the lowest-priority one) when nothing matches. -/
def determineTier (policy : SecurityPolicy) (estimatedValueUsd : ℚ)
    (targetAddress : String) (functionSignature : Option String) :
    Option SecurityTierConfig :=
  let sortedTiers := sortByMinDesc policy.tiers
  match findTierLoop estimatedValueUsd targetAddress functionSignature sortedTiers with
  | some tier => some tier
  | none => sortedTiers.getLast?

/-- The composite-score computation of the `riskAggregator` middleware:
weighted sum (0.40/0.35/0.25), `Math.round`, clamp to `[0,100]`, then the
`≥ 90` single-component override raising it to at least 80. -/
def compositeOf (c t b : ℚ) : ℚ :=
  let rounded := jsRound (c * (40 / 100) + t * (35 / 100) + b * (25 / 100))
  let clamped := clamp0100 rounded
  if c ≥ 90 ∨ t ≥ 90 ∨ b ≥ 90 then (max clamped 80 : ℤ) else (clamped : ℤ)

/-- The `riskAggregator` middleware. -/
def riskAggregator (ctx : EvalCtx) : EvalCtx :=
  let c := ctx.riskScores.context.getD 0
  let t := ctx.riskScores.transaction.getD 0
  let b := ctx.riskScores.behavioral.getD 0
  let composite := compositeOf c t b
  let estimatedValue := (ctx.decoded.map (·.estimatedValueUsd)).getD 0
  let tier := determineTier ctx.policy estimatedValue ctx.transaction.toAddr
    (ctx.decoded.bind (·.functionName))
  { ctx with
      riskScores :=
        { context := some c, transaction := some t,
          behavioral := some b, composite := some composite },
      tier := match tier with
              | some tr => some tr
              | none => ctx.tier }

/-! ## Policy engine middleware
(packages/core/src/middleware/policy-engine.ts, `policyEngine`) -/

/-- The `policyEngine` middleware: decides from the matched tier's mode,
applies the critical-finding and high-context overrides, checks the
global per-transaction limit, generates suggestions and stores the
verdict. `evaluationId` and `timestamp` model `randomUUID()` and
`new Date().toISOString()`. -/
def policyEngine (evaluationId timestamp : String) (ctx : EvalCtx) :
    Except String EvalCtx := do
  let scores : RiskScore :=
    { context := ctx.riskScores.context.getD 0,
      transaction := ctx.riskScores.transaction.getD 0,
      behavioral := ctx.riskScores.behavioral.getD 0,
      composite := ctx.riskScores.composite.getD 0 }
  let tier := ctx.tier
  -- decision / requiredAction / delaySeconds before the global limits
  let (decision1, requiredAction1, delaySeconds) :
      Decision × RequiredAction × Option ℕ :=
    match tier with
    | none =>
      -- no tier matched: conservative defaults
      (if scores.composite > 70 then .block
       else if scores.composite > 30 then .advise
       else .approve, .noAction, none)
    | some tier =>
      let base : Decision × RequiredAction × Option ℕ :=
        match tier.enforcement.mode with
        | .audit => (.approve, .noAction, none)
        | .copilot =>
          (if scores.composite > 50 then .advise else .approve, .noAction, none)
        | .guardian =>
          if scores.composite ≥ tier.enforcement.blockThreshold then
            (.block, .humanApproval, none)
          else if scores.composite ≥ tier.enforcement.blockThreshold * (60 / 100) then
            (.advise, .noAction, none)
          else (.approve, .noAction, none)
        | .fortress =>
          match tier.enforcement.timeLockSeconds with
          | some tl => (.block, .delay, some tl)
          | none => (.block, .humanApproval, none)
      -- override: any critical finding forces a block, except in audit mode
      let hasCritical := ctx.reasons.any (fun r => r.severity = .critical)
      let afterCritical : Decision × RequiredAction × Option ℕ :=
        if hasCritical ∧ tier.enforcement.mode ≠ .audit then
          (.block, .humanApproval, base.2.2)
        else base
      -- high-severity context findings force at least an advisory
      let hasHighContext := ctx.reasons.any
        (fun r => r.source = .context ∧ (r.severity = .high ∨ r.severity = .critical))
      if hasHighContext ∧ afterCritical.1 = .approve ∧ tier.enforcement.mode ≠ .audit then
        (.advise, afterCritical.2.1, afterCritical.2.2)
      else afterCritical
  -- global limits
  let txValue ←
    match jsBigInt? (ctx.transaction.value.getD "0") with
    | some v => pure v
    | none => throw "SyntaxError: Cannot convert transaction value to a BigInt"
  let maxTxWei ←
    match jsBigInt? ctx.policy.limits.maxTransactionValueWei with
    | some v => pure v
    | none => throw "SyntaxError: Cannot convert the transaction limit to a BigInt"
  let (decision2, requiredAction2, reasons2) :
      Decision × RequiredAction × List SecurityReason :=
    if txValue > maxTxWei then
      (.block, .humanApproval, ctx.reasons ++
        [{ code := "EXCEEDS_TX_LIMIT",
           message := "Transaction value exceeds maximum per-transaction limit",
           severity := .high, source := .policy }])
    else (decision1, requiredAction1, ctx.reasons)
  -- suggestions for blocked transactions
  let suggestions : List String :=
    if decision2 = .block then
      (if reasons2.any (fun r => r.code = "INFINITE_APPROVAL") then
        ["Use a specific approval amount instead of infinite approval"] else []) ++
      (if reasons2.any (fun r => r.code = "DENYLISTED_ADDRESS") then
        ["Verify the target address - it appears on known threat lists"] else []) ++
      (if reasons2.any (fun r => r.source = .context) then
        ["Review the conversation context for potential prompt injection"] else []) ++
      (if reasons2.any (fun r => r.code = "NEW_ADDRESS") then
        ["The target address is very new - consider waiting or verifying through an independent channel"]
       else [])
    else []
  let verdict : SecurityVerdict :=
    { decision := decision2,
      riskScore := scores,
      reasons := reasons2,
      suggestions := suggestions,
      requiredAction := requiredAction2,
      delaySeconds := delaySeconds,
      timestamp := timestamp,
      evaluationId := evaluationId,
      tierId := (tier.map (·.id)).getD "unknown" }
  pure { ctx with reasons := reasons2, verdict := some verdict }

/-! ## Pipeline composition and the shield orchestrator
(packages/core/src/pipeline.ts, packages/core/src/shield.ts)

Every core middleware invokes its continuation exactly once, in tail
position, so the Koa-style `compose` dispatcher reduces to sequential
composition of the stages in registration order. The shield registers no
custom middleware unless `use()` is called; the modelled pipeline is the
default nine-stage one (stage 7 empty). -/

/-- The deterministic inputs of one evaluation that the source draws from
the ambient environment. -/
structure EvalEnv where
  /-- abstract oracle for `RegExp.prototype.test` -/
  regexTest : String → String → Bool
  /-- model of the behavioral comparator (see `BehavioralModel`) -/
  beh : BehavioralModel
  /-- `Date.now()` in milliseconds -/
  now : ℕ
  /-- `new Date().toDateString()` -/
  today : String
  /-- `crypto.randomUUID()` for the verdict stamped in this evaluation -/
  evaluationId : String
  /-- `new Date().toISOString()` for the verdict stamped in this evaluation -/
  timestamp : String

/-- `buildPipeline` composed over one evaluation context: the nine stages
in registration order (no intelligence configured, no custom
middleware). -/
def runPipeline (env : EvalEnv) (tracker : List EscSample) (ctx : EvalCtx) :
    Except String (EvalCtx × List EscSample) := do
  let (ctx1, tracker') := createContextAnalyzer env.regexTest env.now tracker ctx
  let ctx2 ← transactionDecoder ctx1
  let ctx3 ← shieldValueAssessor ctx2
  let ctx4 := createAddressChecker none ctx3
  let ctx5 ← createContractChecker none ctx4
  let ctx6 := behavioralComparator env.beh ctx5
  let ctx7 := riskAggregator ctx6
  let ctx8 ← policyEngine env.evaluationId env.timestamp ctx7
  pure (ctx8, tracker')

/-- The shield's mutable state (`createShield` closure variables). -/
structure ShieldState where
  policy : SecurityPolicy
  frozen : Bool := false
  freezeReason : String := ""
  evaluationCount : ℕ := 0
  blockCount : ℕ := 0
  advisoryCount : ℕ := 0
  dailyVolumeWei : ℤ := 0
  dailyVolumeResetDate : String
  auditLog : List AuditEntry := []
  /-- escalation tracker owned by the context-analyzer closure -/
  tracker : List EscSample := []
  deriving DecidableEq, Repr

/-- The audit-log trim: keep the last 10 000 entries. -/
def auditTrim (log : List AuditEntry) : List AuditEntry :=
  if log.length > 10000 then log.drop (log.length - 10000) else log

/-- `recordAudit`: append an entry (with the sanitized context summary and
the `executed ?? decision === 'approve'` flag) and trim the log. -/
def recordAudit (tx : TransactionRequest) (verdict : SecurityVerdict)
    (context : Option ConversationContext) (executed : Option Bool)
    (log : List AuditEntry) : List AuditEntry :=
  auditTrim (log ++
    [{ evaluationId := verdict.evaluationId,
       timestamp := verdict.timestamp,
       transaction := tx,
       verdict := verdict,
       contextSummary := context.map (fun c =>
         toString c.messages.length ++ " messages, source: " ++ c.source.identifier),
       executed := executed.getD (verdict.decision = .approve) }])

/-- `checkDailyReset`. -/
def checkDailyReset (today : String) (s : ShieldState) : ShieldState :=
  if today ≠ s.dailyVolumeResetDate then
    { s with dailyVolumeWei := 0, dailyVolumeResetDate := today }
  else s

/-- JS `array.slice(-n)`. -/
def takeLast {α : Type} (n : ℕ) (l : List α) : List α :=
  l.drop (l.length - n)

/-- The synthetic verdict returned while the shield is frozen. -/
def frozenVerdict (freezeReason evaluationId timestamp : String) : SecurityVerdict :=
  { decision := .freeze,
    riskScore := { context := 0, transaction := 0, behavioral := 0, composite := 100 },
    reasons := [{ code := "SYSTEM_FROZEN",
                  message := "System is in emergency freeze: " ++ freezeReason,
                  severity := .critical, source := .policy }],
    suggestions := ["Contact operator to unfreeze the system"],
    requiredAction := .humanApproval,
    timestamp := timestamp,
    evaluationId := evaluationId,
    tierId := "frozen" }

/-- The fallback verdict when the pipeline produced no verdict. -/
def pipelineErrorVerdict (evaluationId timestamp : String) : SecurityVerdict :=
  { decision := .block,
    riskScore := { context := 0, transaction := 0, behavioral := 0, composite := 50 },
    reasons := [{ code := "PIPELINE_ERROR",
                  message := "Evaluation pipeline did not produce a verdict",
                  severity := .high, source := .policy }],
    suggestions := ["Check Wardex configuration"],
    requiredAction := .noAction,
    timestamp := timestamp,
    evaluationId := evaluationId,
    tierId := "error" }

/-- The counter update after a verdict (`blockCount` / `advisoryCount`). -/
def updateCounters (verdict : SecurityVerdict) (s : ShieldState) : ShieldState :=
  if verdict.decision = .block ∨ verdict.decision = .freeze then
    { s with blockCount := s.blockCount + 1 }
  else if verdict.decision = .advise then
    { s with advisoryCount := s.advisoryCount + 1 }
  else s

/-- The daily-volume tracking for approved transactions, with the
retroactive promotion to a `DAILY_VOLUME_EXCEEDED` block. -/
def dailyVolumeStep (tx : TransactionRequest) (verdict : SecurityVerdict)
    (s : ShieldState) : Except String (SecurityVerdict × ShieldState) := do
  if verdict.decision = .approve then
    let txWei ←
      match jsBigInt? (tx.value.getD "0") with
      | some v => pure v
      | none => throw "SyntaxError: Cannot convert transaction value to a BigInt"
    let s := { s with dailyVolumeWei := s.dailyVolumeWei + txWei }
    let maxDaily ←
      match jsBigInt? s.policy.limits.maxDailyVolumeWei with
      | some v => pure v
      | none => throw "SyntaxError: Cannot convert the daily limit to a BigInt"
    if s.dailyVolumeWei > maxDaily then
      pure ({ verdict with
                decision := .block,
                requiredAction := .humanApproval,
                reasons := verdict.reasons ++
                  [{ code := "DAILY_VOLUME_EXCEEDED",
                     message := "Daily transaction volume limit exceeded",
                     severity := .high, source := .policy }] },
            { s with blockCount := s.blockCount + 1 })
    else
      pure (verdict, s)
  else
    pure (verdict, s)

/-- The auto-freeze check, run after the audit insertion so the triggering
entry is itself counted: with at least 5 block/freeze entries among the
last 10, transition to `frozen`. -/
def autoFreezeCheck (verdict : SecurityVerdict) (s : ShieldState) : ShieldState :=
  if verdict.decision = .block ∨ verdict.decision = .freeze then
    let recentEntries := takeLast 10 s.auditLog
    let recentBlocks := recentEntries.filter (fun e =>
      e.verdict.decision = .block ∨ e.verdict.decision = .freeze)
    if recentBlocks.length ≥ 5 then
      { s with
          frozen := true,
          freezeReason := "Auto-freeze: " ++ toString recentBlocks.length ++
            " blocked transactions in last " ++
            toString recentEntries.length ++ " evaluations" }
    else s
  else s

/-- `evaluateInternal`: the core evaluation path of the shield. Callbacks
(`onBlock`, `onAdvisory`, `onFreeze`, `onThreat`) are fire-and-forget side
effects and are not modelled. -/
def evaluateInternal (env : EvalEnv) (tx : TransactionRequest)
    (context : Option ConversationContext) (s : ShieldState) :
    Except String (SecurityVerdict × ShieldState) := do
  -- frozen: synthetic freeze verdict, audited as not executed
  if s.frozen then
    let v := frozenVerdict s.freezeReason env.evaluationId env.timestamp
    pure (v, { s with auditLog := recordAudit tx v context (some false) s.auditLog })
  else
    let s := checkDailyReset env.today s
    let s := { s with evaluationCount := s.evaluationCount + 1 }
    -- build and run the middleware pipeline on a fresh context
    let ctx0 : EvalCtx := { transaction := tx, conversationContext := context,
                            policy := s.policy }
    let (ctxOut, tracker') ← runPipeline env s.tracker ctx0
    let s := { s with tracker := tracker' }
    match ctxOut.verdict with
    | none =>
      let v := pipelineErrorVerdict env.evaluationId env.timestamp
      pure (v, { s with auditLog := recordAudit tx v context (some false) s.auditLog })
    | some verdict =>
      let s := updateCounters verdict s
      let (verdict, s) ← dailyVolumeStep tx verdict s
      -- audit before the freeze check so the triggering entry is counted
      let s := { s with auditLog := recordAudit tx verdict context none s.auditLog }
      let s := autoFreezeCheck verdict s
      pure (verdict, s)

/-- `freeze(reason)`. -/
def shieldFreeze (reason : String) (s : ShieldState) : ShieldState :=
  { s with frozen := true, freezeReason := reason }

/-- `unfreeze()`. -/
def shieldUnfreeze (s : ShieldState) : ShieldState :=
  { s with frozen := false, freezeReason := "" }

/-! ## Transaction validation (packages/core/src/pipeline.ts) -/

/-- `isValidEthereumAddress`: `/^0x[0-9a-fA-F]{40}$/`. -/
def isValidEthereumAddress (address : String) : Bool :=
  match address.data with
  | '0' :: 'x' :: rest => rest.length = 40 && rest.all isHexDigit
  | _ => false

/-- The `data` regex `/^0x[0-9a-fA-F]*$/`. -/
def isHexData (d : List Char) : Bool :=
  match d with
  | '0' :: 'x' :: rest => rest.all isHexDigit
  | _ => false

/-- `validateTransactionRequest`: an error message, or `none` when valid.
(`Number.isInteger(tx.chainId)` always holds under the integer model.) -/
def validateTransactionRequest (tx : TransactionRequest) : Option String :=
  if tx.toAddr = "" then
    some "Transaction is missing the \x22to\x22 address"
  else if ¬isValidEthereumAddress tx.toAddr then
    some ("Invalid \x22to\x22 address: \x22" ++ tx.toAddr ++
      "\x22 is not a valid Ethereum address (expected 0x + 40 hex chars)")
  else if tx.chainId ≤ 0 then
    some ("Invalid chainId: " ++ toString tx.chainId)
  else
    let valueErr : Option String :=
      match tx.value with
      | none => none
      | some v =>
        match jsBigInt? v with
        | none => some ("Invalid transaction value: \x22" ++ v ++
            "\x22 is not a valid integer")
        | some val =>
          if val < 0 then some "Transaction value cannot be negative" else none
    match valueErr with
    | some e => some e
    | none =>
      match tx.data with
      | none => none
      | some d =>
        if d ≠ [] ∧ ¬isHexData d then
          some "Invalid transaction data: must be a hex string starting with 0x"
        else none

/-! ## The `createWardex` evaluation wrapper

Modelled from the spec: the `createWardex` factory (the package index
wiring `validateTransactionRequest` in front of the shield) is not under
`src/`; per spec §7, input-validation failures "yield a synthetic
block-verdict with a single high-severity policy reason; never crash the
evaluation", and the shield "never raises externally". -/

/-- Modelled from the spec: the synthetic verdict for an input-validation
failure — a block with exactly one high-severity policy reason. -/
def invalidInputVerdict (message evaluationId timestamp : String) : SecurityVerdict :=
  { decision := .block,
    riskScore := { context := 0, transaction := 0, behavioral := 0, composite := 100 },
    reasons := [{ code := "INVALID_TRANSACTION", message := message,
                  severity := .high, source := .policy }],
    suggestions := [],
    requiredAction := .humanApproval,
    timestamp := timestamp,
    evaluationId := evaluationId,
    tierId := "invalid" }

/-- Modelled from the spec: `evaluate` as exposed by `createWardex` —
validation first, then the shield's internal evaluation. -/
def wardexEvaluate (env : EvalEnv) (tx : TransactionRequest)
    (context : Option ConversationContext) (s : ShieldState) :
    Except String (SecurityVerdict × ShieldState) :=
  match validateTransactionRequest tx with
  | some err =>
    .ok (invalidInputVerdict err env.evaluationId env.timestamp, s)
  | none => evaluateInternal env tx context s

/-! ## `updatePolicy` guardrails

Modelled from the spec: `mergePolicy` (packages/core/src/policy.ts) is
not under `src/` (only its call site in `shield.ts` and the
policy-guardrails test are). Per spec §4.3 it validates "at least one
tier present, at least one tier with mode guardian or fortress; on pass,
atomically replaces the policy; on fail, raises and leaves the old policy
intact". -/

/-- `Partial<SecurityPolicy>`: every top-level field optional. -/
structure PolicyOverrides where
  tiers : Option (List SecurityTierConfig) := none
  allowlists : Option Allowlists := none
  denylists : Option Denylists := none
  limits : Option GlobalLimits := none
  behavioral : Option BehavioralConfig := none
  contextAnalysis : Option ContextAnalysisConfig := none
  deriving DecidableEq, Repr

/-- Modelled from the spec: merge the overrides over the current policy. -/
def mergedPolicy (p : SecurityPolicy) (o : PolicyOverrides) : SecurityPolicy :=
  { tiers := o.tiers.getD p.tiers,
    allowlists := o.allowlists.getD p.allowlists,
    denylists := o.denylists.getD p.denylists,
    limits := o.limits.getD p.limits,
    behavioral := o.behavioral.getD p.behavioral,
    contextAnalysis := o.contextAnalysis.getD p.contextAnalysis }

/-- Modelled from the spec: the guardrail validation — at least one tier,
and at least one guardian/fortress (blocking) tier. The messages carry
the phrases the guardrails test matches (`/at least one security tier/i`,
`/blocking tier/i`). -/
def validatePolicy (p : SecurityPolicy) : Option String :=
  if p.tiers = [] then
    some "Policy must define at least one security tier"
  else if ¬p.tiers.any (fun t =>
      t.enforcement.mode = .guardian ∨ t.enforcement.mode = .fortress) then
    some "Policy must include at least one blocking tier (guardian or fortress)"
  else none

/-- Modelled from the spec: `updatePolicy` — validate the merged policy;
on failure raise (the returned message) and keep the old state, on
success atomically replace the policy. -/
def updatePolicy (o : PolicyOverrides) (s : ShieldState) :
    ShieldState × Option String :=
  let merged := mergedPolicy s.policy o
  match validatePolicy merged with
  | some e => (s, some e)
  | none => ({ s with policy := merged }, none)

/-! ## Approval tokens (packages/signer/src/isolated-process.ts)

HMAC-SHA256 itself is abstracted into a `MacModel`: an arbitrary
deterministic keyed function whose hex digest has the shape every
`createHmac('sha256', …).digest('hex')` result has — 64 lowercase hex
characters. `parseInt(tsHex, 16)` is modelled as the exact hex value
(IEEE-754 precision above 2^53 is outside the model). -/

/-- Abstract model of `crypto.createHmac('sha256', key)` over the
concatenated update inputs, digested as hex. -/
structure MacModel where
  hmacHex : String → String → String
  digest_len : ∀ key msg, (hmacHex key msg).data.length = 64
  digest_hex : ∀ key msg, ∀ c ∈ (hmacHex key msg).data, c ∈ hexLowerChars

/-- Hex digit character for a value below 16 (lowercase). -/
def hexDigitChar (n : ℕ) : Char :=
  hexLowerChars.getD n '0'

/-- Structural worker for `natToHexLE` (the fuel keeps the recursion
definitionally reducible; it never runs out for `fuel ≥ n`). -/
def natToHexLEAux : ℕ → ℕ → List Char
  | 0, _ => []
  | fuel + 1, n =>
    if n = 0 then [] else hexDigitChar (n % 16) :: natToHexLEAux fuel (n / 16)

/-- Little-endian hex digits of a natural number (`[]` for zero). -/
def natToHexLE (n : ℕ) : List Char :=
  natToHexLEAux n n

/-- `ts.toString(16)`: minimal-length lowercase hex, `"0"` for zero. -/
def tsToHex (t : ℕ) : List Char :=
  if t = 0 then ['0'] else (natToHexLE t).reverse

/-- `.padStart(16, '0')`. -/
def padStart16 (l : List Char) : List Char :=
  List.replicate (16 - l.length) '0' ++ l

/-- `generateApprovalToken`: hex HMAC over `transactionHash ∥ ts.toString()`
followed by the zero-padded 16-hex-digit timestamp. -/
def generateApprovalToken (mac : MacModel) (transactionHash sharedSecret : String)
    (timestamp : ℕ) : String :=
  let ts := timestamp
  let macHex := mac.hmacHex sharedSecret (transactionHash ++ toString ts)
  let tsHex : String := ⟨padStart16 (tsToHex ts)⟩
  macHex ++ tsHex

/-- `APPROVAL_TOKEN_MAX_AGE_MS` (5 minutes). -/
def APPROVAL_TOKEN_MAX_AGE_MS : ℕ := 5 * 60 * 1000

/-- `Buffer.from(hex, 'hex')`: decode byte pairs (an odd trailing digit is
dropped). -/
def bufFromHex : List Char → List ℕ
  | a :: b :: rest => (16 * hexVal a + hexVal b) :: bufFromHex rest
  | _ => []

/-- `crypto.timingSafeEqual` over two hex decodings; a length mismatch
throws in the source and is caught to `false`. -/
def timingSafeEqualHex (received expected : List Char) : Bool :=
  let br := bufFromHex received
  let be := bufFromHex expected
  if br.length ≠ be.length then false else br = be

/-- `verifyApprovalToken`: shape check (`/^[0-9a-f]{80}$/i`), expiry and
future-timestamp check, then the timing-safe MAC comparison. `now` models
`Date.now()` at verification time. -/
def verifyApprovalToken (mac : MacModel) (token transactionHash sharedSecret : String)
    (now : ℕ) : Bool :=
  if ¬(token.data.length = 80 ∧ token.data.all isHexDigit) then false
  else
    let receivedMac := token.data.take 64
    let tsHex := token.data.drop 64
    let timestamp := parseHexNat tsHex
    let age : ℤ := (now : ℤ) - (timestamp : ℤ)
    if age > (APPROVAL_TOKEN_MAX_AGE_MS : ℤ) ∨ age < 0 then false
    else
      let expectedMac :=
        (mac.hmacHex sharedSecret (transactionHash ++ toString timestamp)).data
      timingSafeEqualHex receivedMac expectedMac

/-!
# Theorems

Each claim of the specification review is settled below. Shared concrete
fixtures come first, then the claims in order.
-/

set_option maxRecDepth 8000

/-! ## Shared concrete fixtures -/

/-- A permissive set of global limits used by concrete fixtures. -/
def limitsFixture : GlobalLimits :=
  { maxTransactionValueWei := "100000000000000000000",
    maxDailyVolumeWei := "1000000000000000000000",
    maxApprovalAmountWei := "100000000000000000000",
    maxGasPriceGwei := 500 }

/-- Behavioral configuration used by concrete fixtures. -/
def behavioralFixture : BehavioralConfig :=
  { enabled := false, learningPeriodDays := 7, sensitivityLevel := "medium" }

/-- A tier fixture builder. -/
def mkTierFixture (idv : String) (mode : TierMode) (mn mx : Option ℚ)
    (addrs : Option (List String) := none) : SecurityTierConfig :=
  { id := idv, name := idv,
    triggers := { minValueAtRiskUsd := mn, maxValueAtRiskUsd := mx,
                  targetAddresses := addrs },
    enforcement := { mode := mode, blockThreshold := 70 } }

/-- A policy fixture builder over a tier list. -/
def mkPolicyFixture (tiers : List SecurityTierConfig)
    (limits : GlobalLimits := limitsFixture) : SecurityPolicy :=
  { tiers := tiers,
    allowlists := {}, denylists := {},
    limits := limits,
    behavioral := behavioralFixture,
    contextAnalysis := {} }

/-- The behavioral model emitting nothing (a comparator before any
baseline exists). -/
def behTrivial : BehavioralModel :=
  { findings := fun _ => [],
    score := fun _ => none,
    findings_source := fun _ r h => absurd h (List.not_mem_nil r),
    findings_codes := fun _ r h => absurd h (List.not_mem_nil r) }

/-- A concrete evaluation environment (no regex matches anything). -/
def envFixture : EvalEnv :=
  { regexTest := fun _ _ => false, beh := behTrivial, now := 0,
    today := "Mon Jan 01 2026", evaluationId := "eval-1", timestamp := "2026-01-01T00:00:00.000Z" }

/-- A plain low-value transaction fixture. -/
def txFixture : TransactionRequest :=
  { toAddr := "0x1111111111111111111111111111111111111111", value := some "0", chainId := 1 }

/-!
## C1 — composite risk score

Claim: the composite equals `round(0.40·context + 0.35·transaction +
0.25·behavioral)` clamped to `[0,100]`, and whenever any single component
score is ≥ 90 the composite is raised to at least 80.
-/

/-- The composite-score formula exactly as the specification words it
(for comparison against the `riskAggregator` code): the weighted round
clamped to `[0,100]`, raised to at least 80 when any component is ≥ 90. -/
def specComposite (c t b : ℚ) : ℚ :=
  let clamped := clamp0100 (jsRound ((40 / 100) * c + (35 / 100) * t + (25 / 100) * b))
  if c ≥ 90 ∨ t ≥ 90 ∨ b ≥ 90 then ((max clamped 80 : ℤ) : ℚ) else (clamped : ℚ)

/-- **C1** (confirmed). For every evaluation context, the composite score
computed by the `riskAggregator` middleware equals the specification's
formula — `round(0.40·context + 0.35·transaction + 0.25·behavioral)`
clamped to `[0,100]` — and whenever any single component is ≥ 90 that
formula (hence the composite) is at least 80. -/
theorem claim_C1_composite_formula (ctx : EvalCtx) :
    (riskAggregator ctx).riskScores.composite =
      some (specComposite (ctx.riskScores.context.getD 0)
        (ctx.riskScores.transaction.getD 0) (ctx.riskScores.behavioral.getD 0)) ∧
    ((ctx.riskScores.context.getD 0 ≥ 90 ∨ ctx.riskScores.transaction.getD 0 ≥ 90 ∨
        ctx.riskScores.behavioral.getD 0 ≥ 90) →
      specComposite (ctx.riskScores.context.getD 0)
        (ctx.riskScores.transaction.getD 0) (ctx.riskScores.behavioral.getD 0) ≥ 80) := by
  constructor
  · have harg : ctx.riskScores.context.getD 0 * (40 / 100) +
        ctx.riskScores.transaction.getD 0 * (35 / 100) +
        ctx.riskScores.behavioral.getD 0 * (25 / 100) =
        (40 / 100) * ctx.riskScores.context.getD 0 +
        (35 / 100) * ctx.riskScores.transaction.getD 0 +
        (25 / 100) * ctx.riskScores.behavioral.getD 0 := by ring
    simp only [riskAggregator, compositeOf, specComposite, harg]
  · intro h
    simp only [specComposite, if_pos h]
    exact_mod_cast le_max_right _ (80 : ℤ)

/-- Concrete check of C1: a context score of 90 forces the composite from
a weighted round of 36 up to exactly 80. -/
def ctxC1 : EvalCtx :=
  { transaction := txFixture,
    policy := mkPolicyFixture [mkTierFixture "t" .guardian (some 0) none],
    riskScores := { context := some 90 } }

/-- Witness for C1 at a concrete input. -/
theorem claim_C1_composite_formula_witness :
    (riskAggregator ctxC1).riskScores.composite = some (specComposite 90 0 0) ∧
      specComposite 90 0 0 ≥ 80 ∧ specComposite 90 0 0 = 80 :=
  ⟨(claim_C1_composite_formula ctxC1).1,
   (claim_C1_composite_formula ctxC1).2 (Or.inl (by decide)),
   by decide⟩

/-!
## C2 — tier resolution precedence

Claim: address triggers take **absolute** precedence over value-based
matches in any tier, then function-signature triggers, then the value
ranges in descending-min order.

The code refutes the absolute precedence: `determineTier` makes a single
pass over the tiers in descending-min order and, within each tier, tests
the address trigger, the function trigger, then the value range. A value
match in a higher-min tier therefore wins over an address trigger listed
in a lower-min tier.
-/

/-- A tier whose triggers list the special address, with the lowest min. -/
def tierC2addr : SecurityTierConfig :=
  mkTierFixture "addr-override" .fortress (some 0) none
    (some ["0x2222222222222222222222222222222222222222"])

/-- A plain value tier with a higher min. -/
def tierC2value : SecurityTierConfig :=
  mkTierFixture "high-value" .guardian (some 1000) none

/-- Fixture policy for the C2 counterexample. -/
def policyC2 : SecurityPolicy :=
  mkPolicyFixture [tierC2value, tierC2addr]

/-- **C2** counterexample. A transaction to the listed special address
with an estimated value of $2000 resolves to the plain value tier
(min $1000), not to the tier whose triggers list the `to` address —
refuting the claimed absolute precedence of address triggers. -/
theorem claim_C2_tier_precedence_counterexample :
    determineTier policyC2 2000 "0x2222222222222222222222222222222222222222" none =
        some tierC2value ∧
      tierC2addr ∈ policyC2.tiers ∧
      tierMatchesAddress tierC2addr "0x2222222222222222222222222222222222222222" = true ∧
      tierC2value.id ≠ tierC2addr.id := by
  refine ⟨?_, by decide, by decide, by decide⟩
  decide

/-- Tier resolution as the amended claim words it: one pass over the
tiers in descending-`minValueAtRiskUsd` order; the first tier whose
address trigger, function-signature trigger, or value range matches wins;
the last sorted (lowest-priority) tier is the fallback. -/
def amendedTierResolution (policy : SecurityPolicy) (estimatedValueUsd : ℚ)
    (targetAddress : String) (functionSignature : Option String) :
    Option SecurityTierConfig :=
  let sortedTiers := sortByMinDesc policy.tiers
  match sortedTiers.find? (fun tier =>
      tierMatchesAddress tier targetAddress ||
      tierMatchesFunction tier functionSignature ||
      tierMatchesValue tier estimatedValueUsd) with
  | some tier => some tier
  | none => sortedTiers.getLast?

/-- The scan loop is a first-match search. -/
theorem findTierLoop_eq_find (estimatedValueUsd : ℚ) (targetAddress : String)
    (functionSignature : Option String) (l : List SecurityTierConfig) :
    findTierLoop estimatedValueUsd targetAddress functionSignature l =
      l.find? (fun tier =>
        tierMatchesAddress tier targetAddress ||
        tierMatchesFunction tier functionSignature ||
        tierMatchesValue tier estimatedValueUsd) := by
  induction l with
  | nil => rfl
  | cons tier rest ih =>
    simp only [findTierLoop, List.find?, Bool.or_eq_true]
    by_cases ha : tierMatchesAddress tier targetAddress
    · simp [ha]
    · by_cases hf : tierMatchesFunction tier functionSignature
      · simp [ha, hf]
      · by_cases hv : tierMatchesValue tier estimatedValueUsd
        · simp [ha, hf, hv]
        · simp [ha, hf, hv, ih]

/-- **C2** (amended claim, proved). Tier resolution is the single
descending-min pass described by `amendedTierResolution`: within each
tier address triggers are tested before function triggers before the
value range, the first matching tier wins (so a trigger in a lower-min
tier cannot override a value match in a higher-min tier, while at an
exact min boundary the higher tier wins), and the lowest-priority tier is
the fallback. -/
theorem claim_C2_tier_precedence_amended (policy : SecurityPolicy)
    (estimatedValueUsd : ℚ) (targetAddress : String)
    (functionSignature : Option String) :
    determineTier policy estimatedValueUsd targetAddress functionSignature =
      amendedTierResolution policy estimatedValueUsd targetAddress functionSignature := by
  simp only [determineTier, amendedTierResolution, findTierLoop_eq_find]

/-!
## C3 — audit tiers and the verdict decision

Claim: whenever the matched tier has enforcement mode `audit`, the
decision is `approve` regardless of the accumulated reasons.

The code refutes the unconditional form: the global per-transaction
limit check runs after the mode switch and has no audit exemption, so a
transaction whose value exceeds `maxTransactionValueWei` is blocked with
`EXCEEDS_TX_LIMIT` even under an audit tier. (At the shield level an
approved verdict can additionally be promoted to a block by
`DAILY_VOLUME_EXCEEDED`.) The overrides that *do* honour the reasons
(critical findings, high-severity context findings) are indeed skipped in
audit mode.
-/

/-- An audit tier fixture. -/
def tierC3 : SecurityTierConfig :=
  mkTierFixture "t-audit" .audit (some 0) none

/-- Fixture policy with a one-wei transaction limit. -/
def policyC3 : SecurityPolicy :=
  mkPolicyFixture [tierC3]
    { limitsFixture with maxTransactionValueWei := "1" }

/-- Evaluation context fixture: audit tier matched, transaction value 2
wei against the 1-wei limit, with a critical reason accumulated. -/
def ctxC3 : EvalCtx :=
  { transaction := { toAddr := "0x1111111111111111111111111111111111111111",
                     value := some "2" },
    policy := policyC3,
    reasons := [{ code := "DENYLISTED_ADDRESS", message := "denylisted",
                  severity := .critical, source := .address }],
    tier := some tierC3 }

/-- **C3** counterexample. Under a matched audit tier, a transaction
whose value (2 wei) exceeds `maxTransactionValueWei` (1 wei) receives
decision `block`, not `approve`. -/
theorem claim_C3_audit_approve_counterexample :
    ctxC3.tier = some tierC3 ∧ tierC3.enforcement.mode = .audit ∧
      ((policyEngine "eval-1" "ts" ctxC3).toOption.bind (fun c => c.verdict)).map
          SecurityVerdict.decision = some .block ∧
      ((policyEngine "eval-1" "ts" ctxC3).toOption.bind (fun c => c.verdict)).map
          (fun v => v.reasons.map SecurityReason.code) =
        some ["DENYLISTED_ADDRESS", "EXCEEDS_TX_LIMIT"] := by
  refine ⟨by decide, by decide, ?_, ?_⟩ <;> decide

/-- **C3** (amended claim, proved). For every evaluation context whose
matched tier has mode `audit` and whose transaction value does not exceed
`maxTransactionValueWei`, the policy engine's decision is `approve`,
regardless of the accumulated reasons (critical ones included). -/
theorem claim_C3_audit_approve_amended (eid ts : String) (ctx : EvalCtx)
    (tier : SecurityTierConfig) (txv mx : ℤ)
    (htier : ctx.tier = some tier) (hmode : tier.enforcement.mode = .audit)
    (hv : jsBigInt? (ctx.transaction.value.getD "0") = some txv)
    (hm : jsBigInt? ctx.policy.limits.maxTransactionValueWei = some mx)
    (hle : txv ≤ mx) :
    ∃ ctx', policyEngine eid ts ctx = .ok ctx' ∧
      ∃ v, ctx'.verdict = some v ∧ v.decision = .approve := by
  simp only [policyEngine, htier, hv, hm, hmode, bind, Except.bind, pure, Except.pure,
    ne_eq, not_true_eq_false, and_false, if_false]
  rw [if_neg (not_lt.mpr hle)]
  exact ⟨_, rfl, _, rfl, rfl⟩

/-- Witness for the amended C3 at a concrete input: the same audit
context with a permissive limit yields `approve` despite the critical
reason. -/
theorem claim_C3_audit_approve_amended_witness :
    ∃ ctx', policyEngine "eval-1" "ts"
        { ctxC3 with policy := mkPolicyFixture [tierC3] } = .ok ctx' ∧
      ∃ v, ctx'.verdict = some v ∧ v.decision = .approve :=
  claim_C3_audit_approve_amended "eval-1" "ts" _ tierC3 2 100000000000000000000
    (by decide) (by decide) (by decide)
    (by decide) (by decide)

/-!
## C4 — approval-token round trip

Claim: `verify(generate(h, S, t), h, S)` is true iff `now − t < 300000`
at verification time.

The code refutes the exact boundary and direction: a token whose age is
*exactly* 300 000 ms still verifies (`age > MAX_AGE` rejects, so the
boundary is accepted even though `now − t < 300000` fails), and tokens
with future timestamps (`now − t < 0 < 300000`) are rejected. The
corrected round trip is: verification succeeds iff the timestamp fits the
16-hex-digit field (`t < 2^64`), is not in the future, and is at most
300 000 ms old.
-/

/-- Digits below 16 name lowercase hex characters. -/
theorem hexDigitChar_mem {n : ℕ} (h : n < 16) : hexDigitChar n ∈ hexLowerChars := by
  interval_cases n <;> decide

/-- Lowercase hex characters pass `isHexDigit`. -/
theorem mem_hexLower_isHexDigit {c : Char} (h : c ∈ hexLowerChars) :
    isHexDigit c = true := by
  fin_cases h <;> decide

/-- `hexVal` reads `hexDigitChar` back. -/
theorem hexVal_hexDigitChar {n : ℕ} (h : n < 16) : hexVal (hexDigitChar n) = n := by
  interval_cases n <;> decide

/-- `hexVal` is always below 16. -/
theorem hexVal_lt_16 (c : Char) : hexVal c < 16 :=
  Nat.mod_lt _ (by norm_num)

/-- The hex-digit worker is fuel-independent above the argument. -/
theorem natToHexLEAux_congr :
    ∀ f₁ f₂ n : ℕ, n ≤ f₁ → n ≤ f₂ → natToHexLEAux f₁ n = natToHexLEAux f₂ n := by
  intro f₁
  induction f₁ with
  | zero =>
    intro f₂ n h1 _
    have hn : n = 0 := Nat.le_zero.mp h1
    subst hn
    cases f₂ with
    | zero => rfl
    | succ g => rfl
  | succ f ih =>
    intro f₂ n h1 h2
    cases f₂ with
    | zero =>
      have hn : n = 0 := Nat.le_zero.mp h2
      subst hn
      rfl
    | succ g =>
      by_cases hn : n = 0
      · simp [natToHexLEAux, hn]
      · have hdiv : n / 16 ≤ f ∧ n / 16 ≤ g := by
          have := Nat.div_lt_self (Nat.pos_of_ne_zero hn) (by norm_num : 1 < 16)
          omega
        simp only [natToHexLEAux, if_neg hn]
        rw [ih g (n / 16) hdiv.1 hdiv.2]

/-- Unfolding step of `natToHexLE` for nonzero arguments. -/
theorem natToHexLE_succ (n : ℕ) (h : n ≠ 0) :
    natToHexLE n = hexDigitChar (n % 16) :: natToHexLE (n / 16) := by
  cases n with
  | zero => exact absurd rfl h
  | succ m =>
    show natToHexLEAux (m + 1) (m + 1) = _
    simp only [natToHexLEAux, if_neg (Nat.succ_ne_zero m)]
    refine congrArg _ ?_
    exact natToHexLEAux_congr m ((m + 1) / 16) ((m + 1) / 16)
      (by have := Nat.div_lt_self (Nat.succ_pos m) (by norm_num : 1 < 16); omega)
      le_rfl

/-- All digits produced by `natToHexLE` are hex digits. -/
theorem natToHexLE_all_hex : ∀ n : ℕ, ∀ c ∈ natToHexLE n, isHexDigit c = true := by
  intro n
  induction n using Nat.strong_induction_on with
  | _ n ih =>
    intro c hc
    by_cases hn : n = 0
    · subst hn; cases hc
    · rw [natToHexLE_succ n hn] at hc
      rcases List.mem_cons.mp hc with h | h
      · subst h
        exact mem_hexLower_isHexDigit (hexDigitChar_mem (Nat.mod_lt n (by norm_num)))
      · exact ih (n / 16) (Nat.div_lt_self (Nat.pos_of_ne_zero hn) (by norm_num)) c h

/-- `parseHexNat` of an appended digit. -/
theorem parseHexNat_append_singleton (l : List Char) (c : Char) :
    parseHexNat (l ++ [c]) = 16 * parseHexNat l + hexVal c := by
  simp [parseHexNat, List.foldl_append]

/-- `parseHexNat` inverts `natToHexLE` (big-endian reading). -/
theorem parseHexNat_rev_natToHexLE : ∀ n : ℕ, parseHexNat (natToHexLE n).reverse = n := by
  intro n
  induction n using Nat.strong_induction_on with
  | _ n ih =>
    by_cases hn : n = 0
    · subst hn; rfl
    · rw [natToHexLE_succ n hn, List.reverse_cons, parseHexNat_append_singleton,
        ih (n / 16) (Nat.div_lt_self (Nat.pos_of_ne_zero hn) (by norm_num)),
        hexVal_hexDigitChar (Nat.mod_lt n (by norm_num))]
      omega

/-- `parseHexNat` inverts `tsToHex`. -/
theorem parseHexNat_tsToHex (t : ℕ) : parseHexNat (tsToHex t) = t := by
  by_cases ht : t = 0
  · subst ht; rfl
  · rw [tsToHex, if_neg ht]
    exact parseHexNat_rev_natToHexLE t

/-- Leading zeros do not change the parsed value. -/
theorem parseHexNat_replicate_zero (k : ℕ) (l : List Char) :
    parseHexNat (List.replicate k '0' ++ l) = parseHexNat l := by
  induction k with
  | zero => simp
  | succ m ih =>
    have hrep : List.replicate (m + 1) '0' ++ l = '0' :: (List.replicate m '0' ++ l) := by
      simp [List.replicate_succ]
    rw [hrep]
    show List.foldl _ (16 * 0 + hexVal '0') _ = _
    have h0 : 16 * 0 + hexVal '0' = 0 := by decide
    rw [h0]
    exact ih

/-- `parseHexNat` is blind to the zero padding. -/
theorem parseHexNat_padStart16 (l : List Char) :
    parseHexNat (padStart16 l) = parseHexNat l :=
  parseHexNat_replicate_zero _ l

/-- Digit-count bound: below `16^k` means at most `k` digits. -/
theorem natToHexLE_length_le : ∀ k n : ℕ, n < 16 ^ k → (natToHexLE n).length ≤ k := by
  intro k
  induction k with
  | zero =>
    intro n h
    interval_cases n
    simp [natToHexLE, natToHexLEAux]
  | succ m ih =>
    intro n h
    by_cases hn : n = 0
    · subst hn; simp [natToHexLE, natToHexLEAux]
    · rw [natToHexLE_succ n hn]
      have hdiv : n / 16 < 16 ^ m := by
        rw [Nat.div_lt_iff_lt_mul (by norm_num : 0 < 16)]
        calc n < 16 ^ (m + 1) := h
        _ = 16 ^ m * 16 := by ring
      simpa using ih (n / 16) hdiv

/-- Parsed values are bounded by the digit count. -/
theorem parseHexNat_lt (l : List Char) : parseHexNat l < 16 ^ l.length := by
  suffices key : ∀ (l : List Char) (a : ℕ),
      List.foldl (fun a c => 16 * a + hexVal c) a l < (a + 1) * 16 ^ l.length by
    simpa using key l 0
  intro l
  induction l with
  | nil => intro a; simp
  | cons c cs ih =>
    intro a
    calc List.foldl (fun a c => 16 * a + hexVal c) (16 * a + hexVal c) cs
        < (16 * a + hexVal c + 1) * 16 ^ cs.length := ih _
      _ ≤ (a + 1) * 16 ^ (c :: cs).length := by
          have := hexVal_lt_16 c
          simp only [List.length_cons, pow_succ]
          nlinarith [pow_pos (by norm_num : (0:ℕ) < 16) cs.length]

/-- `trimWS` is the identity on whitespace-free lists. -/
theorem trimWS_eq_self {l : List Char} (h : ∀ c ∈ l, isJsWS c = false) :
    trimWS l = l := by
  have key : ∀ (m : List Char), (∀ c ∈ m, isJsWS c = false) →
      m.dropWhile isJsWS = m := by
    intro m hm
    cases m with
    | nil => rfl
    | cons x xs => simp [List.dropWhile, hm x (List.mem_cons_self x xs)]
  rw [trimWS, key l h,
    key l.reverse (fun c hc => h c (List.mem_reverse.mp hc)),
    List.reverse_reverse]

/-- Reflexivity of the timing-safe comparison. -/
theorem timingSafeEqualHex_self (r : List Char) : timingSafeEqualHex r r = true := by
  simp [timingSafeEqualHex]

/-- Every digest of a `MacModel` consists of hex digits. -/
theorem mac_digest_all_hex (mac : MacModel) (k m : String) :
    (mac.hmacHex k m).data.all isHexDigit = true :=
  List.all_eq_true.mpr (fun c hc => mem_hexLower_isHexDigit (mac.digest_hex k m c hc))

/-- **C4** (amended claim, proved). For every MAC model, transaction hash,
shared secret, generation timestamp `t` and verification time `now`, the
round trip `verifyApprovalToken (generateApprovalToken …)` succeeds iff
`t` fits the 16-hex-digit timestamp field (`t < 2^64`), is not in the
future (`t ≤ now`), and the token is at most 300 000 ms old
(`now − t ≤ 300000` — the exact 300 000 ms boundary is accepted). -/
theorem claim_C4_token_roundtrip_amended (mac : MacModel) (h S : String) (t now : ℕ) :
    verifyApprovalToken mac (generateApprovalToken mac h S t) h S now = true ↔
      (t < 2 ^ 64 ∧ t ≤ now ∧ now - t ≤ 300000) := by
  have hlen : (mac.hmacHex S (h ++ toString t)).data.length = 64 :=
    mac.digest_len S (h ++ toString t)
  have htok : (generateApprovalToken mac h S t).data =
      (mac.hmacHex S (h ++ toString t)).data ++ padStart16 (tsToHex t) := by
    show ((mac.hmacHex S (h ++ toString t)) ++
      (⟨padStart16 (tsToHex t)⟩ : String)).data = _
    rw [String.data_append]
  by_cases hbig : t < 2 ^ 64
  · -- the timestamp fits: the token has the 80-character shape
    have hts_le : (tsToHex t).length ≤ 16 := by
      by_cases ht : t = 0
      · subst ht; simp [tsToHex]
      · rw [tsToHex, if_neg ht, List.length_reverse]
        exact natToHexLE_length_le 16 t (by norm_num at hbig ⊢; omega)
    have hpadlen : (padStart16 (tsToHex t)).length = 16 := by
      simp only [padStart16, List.length_append, List.length_replicate]
      omega
    have hlen80 : (generateApprovalToken mac h S t).data.length = 80 := by
      rw [htok]; simp [hlen, hpadlen]
    have hallhex : (generateApprovalToken mac h S t).data.all isHexDigit = true := by
      rw [htok, List.all_append, Bool.and_eq_true]
      refine ⟨mac_digest_all_hex mac S (h ++ toString t), ?_⟩
      simp only [padStart16]
      rw [List.all_append, Bool.and_eq_true]
      refine ⟨?_, ?_⟩
      · exact List.all_eq_true.mpr (fun c hc => by
          rw [List.eq_of_mem_replicate hc]; decide)
      · refine List.all_eq_true.mpr (fun c hc => ?_)
        by_cases ht : t = 0
        · subst ht
          simp [tsToHex] at hc
          subst hc
          decide
        · rw [tsToHex, if_neg ht] at hc
          exact natToHexLE_all_hex t c (List.mem_reverse.mp hc)
    rw [verifyApprovalToken, if_neg (not_not_intro ⟨hlen80, hallhex⟩)]
    simp only [htok, List.take_left' hlen, List.drop_left' hlen,
      parseHexNat_padStart16, parseHexNat_tsToHex]
    by_cases hcond : ((now : ℤ) - t > (APPROVAL_TOKEN_MAX_AGE_MS : ℤ) ∨ (now : ℤ) - t < 0)
    · rw [if_pos hcond]
      simp only [Bool.false_eq_true, false_iff]
      rw [show APPROVAL_TOKEN_MAX_AGE_MS = 300000 from rfl] at hcond
      omega
    · rw [if_neg hcond, timingSafeEqualHex_self]
      simp only [true_iff]
      rw [show APPROVAL_TOKEN_MAX_AGE_MS = 300000 from rfl] at hcond
      push_neg at hcond
      refine ⟨hbig, by omega, by omega⟩
  · -- the timestamp overflows the 16-digit field: the shape check fails
    have ht0 : t ≠ 0 := by
      intro h0; subst h0; exact hbig (by norm_num)
    have hlong : 17 ≤ (natToHexLE t).length := by
      by_contra hshort
      have hb : t < 16 ^ (natToHexLE t).length := by
        conv_lhs => rw [← parseHexNat_rev_natToHexLE t]
        simpa using parseHexNat_lt (natToHexLE t).reverse
      have hb2 : t < 16 ^ 16 := lt_of_lt_of_le hb
        (Nat.pow_le_pow_right (by norm_num) (by omega))
      exact hbig (by norm_num at hb2 ⊢; omega)
    have hts : (tsToHex t).length = (natToHexLE t).length := by
      rw [tsToHex, if_neg ht0, List.length_reverse]
    have hpadlen : (padStart16 (tsToHex t)).length = (natToHexLE t).length := by
      simp only [padStart16, List.length_append, List.length_replicate, hts]
      omega
    have hlen81 : (generateApprovalToken mac h S t).data.length ≠ 80 := by
      rw [htok]
      simp only [List.length_append, hlen, hpadlen]
      omega
    rw [verifyApprovalToken, if_pos (fun hc => hlen81 hc.1)]
    simp only [Bool.false_eq_true, false_iff]
    intro hc
    exact absurd hc.1 hbig

/-- The dummy MAC model used by concrete token checks: a constant
64-hex-character digest. -/
def dummyMac : MacModel :=
  { hmacHex := fun _ _ => ⟨List.replicate 64 'a'⟩,
    digest_len := fun _ _ => by simp,
    digest_hex := fun _ _ c hc => by
      rw [show (String.mk (List.replicate 64 'a')).data = List.replicate 64 'a' from rfl]
        at hc
      rw [List.eq_of_mem_replicate hc]
      decide }

/-- **C4** counterexample. At `t = 1000`, `now = 301000` the age is
exactly 300 000 ms, so `now − t < 300000` is false — yet the token still
verifies. The claimed equivalence fails at this concrete point. -/
theorem claim_C4_token_roundtrip_counterexample :
    verifyApprovalToken dummyMac
        (generateApprovalToken dummyMac "deadbeef" "secret" 1000)
        "deadbeef" "secret" 301000 = true ∧
      ¬((301000 - 1000 : ℤ) < 300000) :=
  ⟨by decide, by decide⟩

/-- Witness for the amended C4 at a concrete input: a 1000 ms old token
verifies. -/
theorem claim_C4_token_roundtrip_amended_witness :
    verifyApprovalToken dummyMac
        (generateApprovalToken dummyMac "deadbeef" "secret" 1000)
        "deadbeef" "secret" 2000 = true :=
  (claim_C4_token_roundtrip_amended dummyMac "deadbeef" "secret" 1000 2000).mpr
    (by norm_num)

/-!
## C5 — `updatePolicy` guardrails

Claim: `updatePolicy` validates the resulting policy (at least one tier,
at least one guardian/fortress tier); `updatePolicy({ tiers: [] })`
raises, and a failed update leaves the previous policy intact.

The merge/validation lives in `packages/core/src/policy.ts`, which is
not under `src/`; `updatePolicy`/`validatePolicy` above are modelled from
the spec (§4.3) and checked against the policy-guardrails test's
expectations.
-/

/-- A concrete shield fixture over a guardian-tier policy. -/
def shieldFixture : ShieldState :=
  { policy := mkPolicyFixture [mkTierFixture "t-guardian" .guardian (some 0) none],
    dailyVolumeResetDate := "Mon Jan 01 2026" }

/-- **C5** (confirmed, spec-modelled). `updatePolicy { tiers := [] }`
raises and leaves the state untouched; any failed update leaves the
previous state intact; and a successful update installs exactly the
merged policy, which then has at least one tier and at least one
guardian/fortress tier. -/
theorem claim_C5_update_policy_guardrails :
    (∀ s : ShieldState,
      (updatePolicy { tiers := some [] } s).1 = s ∧
        ((updatePolicy { tiers := some [] } s).2).isSome = true) ∧
    (∀ (s : ShieldState) (o : PolicyOverrides),
      ((updatePolicy o s).2.isSome = true → (updatePolicy o s).1 = s) ∧
      ((updatePolicy o s).2 = none →
        (updatePolicy o s).1.policy = mergedPolicy s.policy o ∧
        (updatePolicy o s).1.policy.tiers ≠ [] ∧
        ∃ t ∈ (updatePolicy o s).1.policy.tiers,
          t.enforcement.mode = .guardian ∨ t.enforcement.mode = .fortress)) := by
  constructor
  · intro s
    simp [updatePolicy, mergedPolicy, validatePolicy]
  · intro s o
    constructor
    · intro hfail
      simp only [updatePolicy] at hfail ⊢
      cases hval : validatePolicy (mergedPolicy s.policy o) with
      | some e => rfl
      | none => simp [hval] at hfail
    · intro hok
      simp only [updatePolicy] at hok ⊢
      cases hval : validatePolicy (mergedPolicy s.policy o) with
      | some e => simp [hval] at hok
      | none =>
        refine ⟨rfl, ?_, ?_⟩
        · intro hempty
          unfold validatePolicy at hval
          rw [if_pos hempty] at hval
          cases hval
        · unfold validatePolicy at hval
          split_ifs at hval with h1 h2
          simpa using h2

/-- Witness for C5 at concrete inputs: the empty-tier override fails and
leaves the fixture state intact; the identity override succeeds and the
installed policy retains its guardian tier. -/
theorem claim_C5_update_policy_guardrails_witness :
    (updatePolicy { tiers := some [] } shieldFixture).1 = shieldFixture ∧
      ((updatePolicy { tiers := some [] } shieldFixture).2).isSome = true ∧
      (updatePolicy { tiers := some [] } shieldFixture).1 = shieldFixture ∧
      ((updatePolicy {} shieldFixture).1.policy =
          mergedPolicy shieldFixture.policy {} ∧
        (updatePolicy {} shieldFixture).1.policy.tiers ≠ [] ∧
        ∃ t ∈ (updatePolicy {} shieldFixture).1.policy.tiers,
          t.enforcement.mode = .guardian ∨ t.enforcement.mode = .fortress) :=
  ⟨(claim_C5_update_policy_guardrails.1 shieldFixture).1,
   (claim_C5_update_policy_guardrails.1 shieldFixture).2,
   (claim_C5_update_policy_guardrails.2 shieldFixture { tiers := some [] }).1 (by decide),
   (claim_C5_update_policy_guardrails.2 shieldFixture {}).2 (by decide)⟩

/-! ## Except plumbing for the shield proofs -/

/-- Inversion of a successful `Except` bind. -/
theorem except_bind_ok {α β : Type} (x : Except String α) (f : α → Except String β) (b : β) :
    (x >>= f) = .ok b ↔ ∃ a, x = .ok a ∧ f a = .ok b := by
  cases x with
  | error e => simp [Bind.bind, Except.bind]
  | ok a => simp [Bind.bind, Except.bind]

/-- Inversion of a successful `Except` pure. -/
theorem except_pure_ok {α : Type} (a b : α) :
    (pure a : Except String α) = .ok b ↔ a = b := by
  simp [pure, Except.pure]

/-- Decidable equality on `Except`, for evaluating concrete runs. -/
instance exceptDecidableEq {α β : Type} [DecidableEq α] [DecidableEq β] :
    DecidableEq (Except α β)
  | .error a, .error b => decidable_of_iff (a = b) (by simp)
  | .error _, .ok _ => .isFalse (by simp)
  | .ok _, .error _ => .isFalse (by simp)
  | .ok a, .ok b => decidable_of_iff (a = b) (by simp)

/-- A successful policy engine run always stores a verdict. -/
theorem policyEngine_ok_verdict {eid ts : String} {ctx c : EvalCtx}
    (h : policyEngine eid ts ctx = .ok c) : ∃ v, c.verdict = some v := by
  unfold policyEngine at h
  cases htx : jsBigInt? (ctx.transaction.value.getD "0") with
  | none =>
    rw [htx] at h
    simp [Bind.bind, Except.bind, throw, throwThe, MonadExceptOf.throw] at h
  | some txv =>
    rw [htx] at h
    cases hmx : jsBigInt? ctx.policy.limits.maxTransactionValueWei with
    | none =>
      rw [hmx] at h
      simp [Bind.bind, Except.bind, pure, Except.pure, throw, throwThe,
        MonadExceptOf.throw] at h
    | some mx =>
      rw [hmx] at h
      simp only [Bind.bind, Except.bind, pure, Except.pure, Except.ok.injEq] at h
      subst h
      exact ⟨_, rfl⟩

/-- A successful pipeline run always produces a context holding a
verdict (the policy engine is the last stage). -/
theorem runPipeline_ok_verdict {env : EvalEnv} {tr : List EscSample} {ctx : EvalCtx}
    {c : EvalCtx} {tr' : List EscSample}
    (h : runPipeline env tr ctx = .ok (c, tr')) : ∃ v, c.verdict = some v := by
  unfold runPipeline at h
  simp only [except_bind_ok, except_pure_ok, Prod.mk.injEq] at h
  obtain ⟨c2, -, c3, -, c5, -, c8, h8, hout, -⟩ := h
  subst hout
  exact policyEngine_ok_verdict h8

/-- The auto-freeze check never touches the audit log. -/
theorem autoFreezeCheck_auditLog (verdict : SecurityVerdict) (s : ShieldState) :
    (autoFreezeCheck verdict s).auditLog = s.auditLog := by
  simp only [autoFreezeCheck]
  split
  · split <;> rfl
  · rfl

/-!
## C10 — the frozen-path frame

Claim: while frozen, each `evaluate` returns a synthetic freeze verdict
and appends exactly one audit entry with `executed = false`, leaving
`evaluationCount`, `blockCount`, `advisoryCount`, `dailyVolumeWei` and
the active policy unchanged.
-/

/-- **C10** (confirmed). On a frozen shield, evaluation returns a
freeze-decision verdict, the audit log grows by exactly one entry with
`executed = false`, and the counters, daily volume, policy (and the
frozen flag itself) are untouched. -/
theorem claim_C10_frozen_frame (env : EvalEnv) (tx : TransactionRequest)
    (context : Option ConversationContext) (s : ShieldState)
    (hfrozen : s.frozen = true) :
    ∃ v entry s',
      evaluateInternal env tx context s = .ok (v, s') ∧
      v.decision = .freeze ∧
      entry.executed = false ∧
      entry.verdict = v ∧
      s'.auditLog = auditTrim (s.auditLog ++ [entry]) ∧
      s'.evaluationCount = s.evaluationCount ∧
      s'.blockCount = s.blockCount ∧
      s'.advisoryCount = s.advisoryCount ∧
      s'.dailyVolumeWei = s.dailyVolumeWei ∧
      s'.policy = s.policy ∧
      s'.frozen = s.frozen := by
  refine ⟨frozenVerdict s.freezeReason env.evaluationId env.timestamp,
    { evaluationId := env.evaluationId,
      timestamp := env.timestamp,
      transaction := tx,
      verdict := frozenVerdict s.freezeReason env.evaluationId env.timestamp,
      contextSummary := context.map (fun c =>
        toString c.messages.length ++ " messages, source: " ++ c.source.identifier),
      executed := false },
    { s with auditLog := recordAudit tx
                           (frozenVerdict s.freezeReason env.evaluationId
                             env.timestamp)
                           context (some false) s.auditLog },
    ?_, rfl, rfl, rfl, rfl, rfl, rfl, rfl, rfl, rfl, rfl⟩
  unfold evaluateInternal
  rw [if_pos hfrozen]
  rfl

/-- Witness for C10 at a concrete input: a manually frozen fixture. -/
theorem claim_C10_frozen_frame_witness :
    ∃ v entry s',
      evaluateInternal envFixture txFixture none
          (shieldFreeze "ops" shieldFixture) = .ok (v, s') ∧
      v.decision = .freeze ∧
      entry.executed = false ∧
      entry.verdict = v ∧
      s'.auditLog = auditTrim ((shieldFreeze "ops" shieldFixture).auditLog ++ [entry]) ∧
      s'.evaluationCount = (shieldFreeze "ops" shieldFixture).evaluationCount ∧
      s'.blockCount = (shieldFreeze "ops" shieldFixture).blockCount ∧
      s'.advisoryCount = (shieldFreeze "ops" shieldFixture).advisoryCount ∧
      s'.dailyVolumeWei = (shieldFreeze "ops" shieldFixture).dailyVolumeWei ∧
      s'.policy = (shieldFreeze "ops" shieldFixture).policy ∧
      s'.frozen = (shieldFreeze "ops" shieldFixture).frozen :=
  claim_C10_frozen_frame envFixture txFixture none
    (shieldFreeze "ops" shieldFixture) (by decide)

/-!
## C6 — auto-freeze and the frozen regime

Claim: whenever a block/freeze verdict is recorded and at least 5 of the
10 most recent audit entries (including the one just recorded) are
block/freeze, the shield freezes, and every subsequent evaluation
returns a freeze verdict until `unfreeze()`.
-/

/-- A fortress tier matching everything: every transaction blocks. -/
def tierFortressC6 : SecurityTierConfig :=
  mkTierFixture "t-fortress" .fortress (some 0) none

/-- A one-tier fortress policy. -/
def polFortC6 : SecurityPolicy := mkPolicyFixture [tierFortressC6]

/-- A block verdict used to pre-seed audit entries. -/
def blockVerdictC6 : SecurityVerdict :=
  { decision := .block,
    riskScore := { context := 0, transaction := 0, behavioral := 0, composite := 0 },
    reasons := [], suggestions := [], requiredAction := .humanApproval,
    timestamp := "t0", evaluationId := "e0", tierId := "t-fortress" }

/-- A pre-seeded blocked audit entry. -/
def blockEntryC6 : AuditEntry :=
  { evaluationId := "e0", timestamp := "t0", transaction := txFixture,
    verdict := blockVerdictC6, contextSummary := none, executed := false }

/-- Shield state with four recent blocks on a fortress policy: the next
blocked evaluation trips the auto-freeze. -/
def c6pre : ShieldState :=
  { policy := polFortC6, dailyVolumeResetDate := "Mon Jan 01 2026",
    auditLog := List.replicate 4 blockEntryC6,
    evaluationCount := 4, blockCount := 4 }

/-- The verdict of the fifth evaluation, computed from the code. -/
def c6v : SecurityVerdict :=
  match evaluateInternal envFixture txFixture none c6pre with
  | .ok (v, _) => v
  | .error _ => blockVerdictC6

/-- The state after the fifth evaluation, computed from the code. -/
def c6post : ShieldState :=
  match evaluateInternal envFixture txFixture none c6pre with
  | .ok (_, s) => s
  | .error _ => c6pre

/-- **C6** (confirmed). (1) Whenever an evaluation returns a block or
freeze verdict and at least 5 of the last 10 entries of the resulting
audit log (which already contains the entry just recorded) are
block/freeze, the resulting state is frozen. (2) Once frozen, every
evaluation returns a freeze-decision verdict and the state stays frozen.
(3) `unfreeze()` clears the frozen flag. -/
theorem claim_C6_auto_freeze (env : EvalEnv) (tx : TransactionRequest)
    (context : Option ConversationContext) (s : ShieldState)
    (v : SecurityVerdict) (s' : ShieldState)
    (heval : evaluateInternal env tx context s = .ok (v, s')) :
    ((v.decision = .block ∨ v.decision = .freeze) →
      5 ≤ ((takeLast 10 s'.auditLog).filter (fun e =>
        e.verdict.decision = .block ∨ e.verdict.decision = .freeze)).length →
      s'.frozen = true) ∧
    (s.frozen = true → v.decision = .freeze ∧ s'.frozen = true) ∧
    (∀ t : ShieldState, (shieldUnfreeze t).frozen = false) := by
  by_cases hfz : s.frozen = true
  · unfold evaluateInternal at heval
    rw [if_pos hfz] at heval
    simp only [pure, Except.pure, Except.ok.injEq, Prod.mk.injEq] at heval
    obtain ⟨hv, hs⟩ := heval
    subst hv
    subst hs
    exact ⟨fun _ _ => hfz, fun _ => ⟨rfl, hfz⟩, fun t => rfl⟩
  · unfold evaluateInternal at heval
    rw [if_neg hfz] at heval
    simp only [except_bind_ok] at heval
    obtain ⟨⟨ctxOut, tracker'⟩, hrp, hrest⟩ := heval
    obtain ⟨pv, hpv⟩ := runPipeline_ok_verdict hrp
    simp only [hpv, except_bind_ok] at hrest
    obtain ⟨⟨v2, s4⟩, hds, hrest2⟩ := hrest
    simp only [except_pure_ok, Prod.mk.injEq] at hrest2
    obtain ⟨hv2, hs'⟩ := hrest2
    subst hv2
    subst hs'
    refine ⟨?_, fun h => absurd h hfz, fun t => rfl⟩
    intro hblock hcount
    rw [autoFreezeCheck_auditLog] at hcount
    simp only [autoFreezeCheck]
    rw [if_pos hblock]
    split
    · rfl
    · rename_i h
      exact absurd hcount h

/-- Witness for C6: with four recent blocks on a fortress policy, the
fifth blocked evaluation freezes the shield. -/
theorem claim_C6_auto_freeze_witness :
    c6post.frozen = true :=
  (claim_C6_auto_freeze envFixture txFixture none c6pre c6v c6post
      (by decide)).1 (by decide) (by decide)

/-!
## C7 — infinite approvals

Claim: an `approve(address,uint256)` call with an amount above `2^128`
draws an `INFINITE_APPROVAL` reason of severity critical from the
decoder, and the value assessor then reports at least $100 000.
-/

/-- Lowercasing preserves hex digits and their values. -/
theorem jsCharLower_hex {c : Char} (h : isHexDigit c = true) :
    isHexDigit (jsCharLower c) = true ∧ hexVal (jsCharLower c) = hexVal c := by
  have hm : c ∈ "0123456789abcdefABCDEF".data := by
    simpa [isHexDigit, decide_eq_true_eq] using h
  fin_cases hm <;> exact ⟨by decide, by decide⟩

/-- Hex digits are not JS whitespace. -/
theorem hex_not_ws {c : Char} (h : isHexDigit c = true) : isJsWS c = false := by
  have hm : c ∈ "0123456789abcdefABCDEF".data := by
    simpa [isHexDigit, decide_eq_true_eq] using h
  fin_cases hm <;> decide

/-- Folding hex values over a lowercased all-hex list is unchanged. -/
theorem foldl_hexVal_lower (l : List Char) (h : ∀ c ∈ l, isHexDigit c = true) :
    ∀ a : ℕ, l.foldl (fun a c => 16 * a + hexVal (jsCharLower c)) a =
      l.foldl (fun a c => 16 * a + hexVal c) a := by
  induction l with
  | nil => intro a; rfl
  | cons c cs ih =>
    intro a
    simp only [List.foldl_cons]
    rw [(jsCharLower_hex (h c (List.mem_cons_self c cs))).2]
    exact ih (fun d hd => h d (List.mem_cons_of_mem c hd)) _

/-- Hex parsing is unchanged by lowercasing an all-hex digit list. -/
theorem parseDigits_hex_lower (l : List Char) (h : ∀ c ∈ l, isHexDigit c = true) :
    parseDigits? isHexDigit hexVal 16 (l.map jsCharLower) =
      parseDigits? isHexDigit hexVal 16 l := by
  by_cases hl : l = []
  · subst hl; rfl
  · have hall : l.all isHexDigit = true := List.all_eq_true.mpr h
    have hall2 : (l.map jsCharLower).all isHexDigit = true := by
      rw [List.all_eq_true]
      intro x hx
      obtain ⟨c, hc, rfl⟩ := List.mem_map.mp hx
      exact (jsCharLower_hex (h c hc)).1
    have hl2 : l.map jsCharLower ≠ [] := by simpa using hl
    rw [parseDigits?, parseDigits?, if_pos ⟨hl2, hall2⟩, if_pos ⟨hl, hall⟩,
      List.foldl_map]
    rw [foldl_hexVal_lower l h 0]

/-- `BigInt('0x' + hexdigits)` reduces to the unsigned hex parse. -/
theorem jsBigIntL_hex (l : List Char) (h : ∀ c ∈ l, isHexDigit c = true) :
    jsBigIntL? ('0' :: 'x' :: l) =
      (parseDigits? isHexDigit hexVal 16 l).map Int.ofNat := by
  have ht : trimWS ('0' :: 'x' :: l) = '0' :: 'x' :: l := by
    apply trimWS_eq_self
    intro c hc
    rcases List.mem_cons.mp hc with rfl | hc2
    · decide
    rcases List.mem_cons.mp hc2 with rfl | hc3
    · decide
    exact hex_not_ws (h c hc3)
  unfold jsBigIntL?
  rw [ht]
  rfl

/-- On an all-hex parameter, `strip0x` is the identity ('x' is not a hex
digit, so the parameter cannot start with `0x`). -/
theorem strip0x_of_hex {l : List Char} (h : ∀ c ∈ l, isHexDigit c = true) :
    strip0x l = l := by
  unfold strip0x
  split
  · exact absurd (h 'x' (by simp)) (by decide)
  · rfl

/-- Any hex amount above `2^128` is an infinite approval. -/
theorem isInfiniteApproval_of_gt {p1 : List Char} {a : ℤ}
    (hhex : ∀ c ∈ p1, isHexDigit c = true)
    (ha : jsBigIntL? ('0' :: 'x' :: p1) = some a) (hgt : a > 2 ^ 128) :
    isInfiniteApproval p1 = true := by
  have hstrip : strip0x p1 = p1 := strip0x_of_hex hhex
  have hhex2 : ∀ c ∈ p1.map jsCharLower, isHexDigit c = true := by
    intro c hc
    obtain ⟨d, hd, rfl⟩ := List.mem_map.mp hc
    exact (jsCharLower_hex (hhex d hd)).1
  have hparse : jsBigIntL? ('0' :: 'x' :: p1.map jsCharLower) = some a := by
    rw [jsBigIntL_hex _ hhex2, parseDigits_hex_lower p1 hhex,
      ← jsBigIntL_hex p1 hhex]
    exact ha
  simp only [isInfiniteApproval]
  rw [hstrip]
  by_cases hmax : p1.map jsCharLower = MAX_UINT256
  · rw [if_pos hmax]
  · rw [if_neg hmax, hparse]
    exact decide_eq_true hgt

/-- **C7** (confirmed). For every transaction whose calldata decodes as
an `approve(address,uint256)` call whose hex amount parameter parses to
a value above `2^128` (and whose value field parses), the decoder
succeeds with an `INFINITE_APPROVAL` reason of severity critical among
its reasons, and the value assessor then succeeds and reports a decoded
`estimatedValueUsd` of at least 100 000. -/
theorem claim_C7_infinite_approval (ctx : EvalCtx) (data p0 p1 : List Char)
    (rest : List (List Char)) (w a : ℤ)
    (hdata : ctx.transaction.data = some data)
    (hval : jsBigInt? (ctx.transaction.value.getD "0") = some w)
    (hsel : decodeSelector data = some ⟨"approve", "approve(address,uint256)"⟩)
    (hparams : extractParams data = p0 :: p1 :: rest)
    (hhex : ∀ c ∈ p1, isHexDigit c = true)
    (ha : jsBigIntL? ('0' :: 'x' :: p1) = some a)
    (hgt : a > 2 ^ 128) :
    ∃ ctx', transactionDecoder ctx = .ok ctx' ∧
      (∃ r ∈ ctx'.reasons, r.code = "INFINITE_APPROVAL" ∧ r.severity = .critical) ∧
      ∃ ctx'', shieldValueAssessor ctx' = .ok ctx'' ∧
        ∃ d, ctx''.decoded = some d ∧ 100000 ≤ d.estimatedValueUsd := by
  have hinf : isInfiniteApproval p1 = true := isInfiniteApproval_of_gt hhex ha hgt
  have hlen : ¬ data.length < 10 := by
    intro hlt
    rw [decodeSelector, if_pos hlt] at hsel
    exact Option.noConfusion hsel
  have hne : data ≠ [] := by
    intro h0
    rw [h0] at hlen
    exact hlen (by decide)
  have hne2 : data ≠ "0x".data := by
    intro h0
    rw [h0] at hlen
    exact hlen (by decide)
  have hlen2 : data.length > 2 := by omega
  unfold transactionDecoder
  simp only [hdata, Option.getD_some, hval, hsel, hparams, hinf, hne, hne2, hlen2,
    ne_eq, eq_self_iff_true, if_true, if_false, ite_true, ite_false, false_or,
    false_and, and_true, true_and, not_false_eq_true,
    Bind.bind, Except.bind, pure, Except.pure]
  refine ⟨_, rfl, ?_, ?_⟩
  · -- the INFINITE_APPROVAL reason is among the decoder's reasons
    split
    · exact ⟨_, List.mem_append_left _ (List.mem_append_right _
        (List.mem_cons_self _ _)), rfl, rfl⟩
    · exact ⟨_, List.mem_append_right _ (List.mem_cons_self _ _), rfl, rfl⟩
  · -- value assessor: the conservative $100K clamp
    unfold shieldValueAssessor createValueAssessor
    simp only [hval, Option.bind, Bind.bind, Except.bind, pure, Except.pure, ha,
      ite_true, ite_false]
    rw [if_pos hgt]
    exact ⟨_, rfl, _, rfl, le_max_right _ _⟩

/-- The approve parameter words of the C7 witness calldata. -/
def c7p0 : List Char :=
  List.replicate 24 '0' ++ "1111111111111111111111111111111111111111".data

/-- The C7 witness amount word: 64 `f`s, i.e. the max uint256. -/
def c7p1 : List Char := List.replicate 64 'f'

/-- The C7 witness calldata: `approve(0x1111…, max uint256)`. -/
def c7data : List Char := "0x095ea7b3".data ++ c7p0 ++ c7p1

/-- The C7 witness evaluation context. -/
def c7ctx : EvalCtx :=
  { transaction := { toAddr := "0x3333333333333333333333333333333333333333",
                     value := some "0", data := some c7data },
    policy := mkPolicyFixture [mkTierFixture "t-guardian" .guardian (some 0) none] }

/-- Witness for C7 at the concrete max-uint256 approval. -/
theorem claim_C7_infinite_approval_witness :
    ∃ ctx', transactionDecoder c7ctx = .ok ctx' ∧
      (∃ r ∈ ctx'.reasons, r.code = "INFINITE_APPROVAL" ∧ r.severity = .critical) ∧
      ∃ ctx'', shieldValueAssessor ctx' = .ok ctx'' ∧
        ∃ d, ctx''.decoded = some d ∧ 100000 ≤ d.estimatedValueUsd :=
  claim_C7_infinite_approval c7ctx c7data c7p0 c7p1 [] 0 (2 ^ 256 - 1)
    rfl (by decide) (by decide) (by decide) (by decide) (by decide) (by decide)

/-!
## C9 — value escalation is unreachable in the shield pipeline

The context analyzer is the first pipeline stage; when it runs,
`ctx.decoded` is still `none`, so its escalation branch (guarded on a
present decoded transaction) is dead: no stage ever emits a
`VALUE_ESCALATION` reason and the escalation tracker never acquires a
sample.
-/

/-- "The list carries no `VALUE_ESCALATION` reason." -/
def noVE (l : List SecurityReason) : Prop :=
  ∀ r ∈ l, r.code ≠ "VALUE_ESCALATION"

/-- `noVE` is preserved by append. -/
theorem noVE_append {l m : List SecurityReason} (hl : noVE l) (hm : noVE m) :
    noVE (l ++ m) := by
  intro r hr
  rcases List.mem_append.mp hr with h | h
  · exact hl r h
  · exact hm r h

/-- `noVE` is preserved by a branch. -/
theorem noVE_ite (c : Prop) [Decidable c] {l m : List SecurityReason}
    (hl : noVE l) (hm : noVE m) : noVE (if c then l else m) := by
  split
  · exact hl
  · exact hm

/-- Codes of the form `INJECTION_<name>` never spell `VALUE_ESCALATION`. -/
theorem injection_code_ne (s : String) : "INJECTION_" ++ s ≠ "VALUE_ESCALATION" := by
  intro h
  have h2 : ("INJECTION_" ++ s).data = "VALUE_ESCALATION".data := congrArg String.data h
  rw [String.data_append] at h2
  simp at h2

/-- The injection-catalog findings carry no `VALUE_ESCALATION` code. -/
theorem noVE_injA (rt : String → String → Bool) (msgs : List ConvMessage) :
    noVE (msgs.flatMap (fun message =>
      (INJECTION_PATTERNS.filter (fun p => rt p.pattern message.content)).map
        (fun p => { code := "INJECTION_" ++ p.name,
                    message := "Prompt injection detected: " ++ p.description,
                    severity := p.severity, source := .context }))) := by
  intro r hr
  obtain ⟨m, -, hr2⟩ := List.mem_flatMap.mp hr
  obtain ⟨p, -, hp⟩ := List.mem_map.mp hr2
  rw [← hp]
  exact injection_code_ne p.name

/-- The custom-pattern findings carry no `VALUE_ESCALATION` code. -/
theorem noVE_custom (rt : String → String → Bool) (pats : List String)
    (msgs : List ConvMessage) :
    noVE (pats.flatMap (fun customPattern =>
      (msgs.filter (fun m => rt customPattern m.content)).map
        (fun _ => { code := "CUSTOM_PATTERN_MATCH",
                    message := "Custom suspicious pattern matched: " ++ customPattern,
                    severity := .medium, source := .context }))) := by
  intro r hr
  obtain ⟨pat, -, hr2⟩ := List.mem_flatMap.mp hr
  obtain ⟨m, -, hp⟩ := List.mem_map.mp hr2
  rw [← hp]
  simp

/-- The source-verification findings carry no `VALUE_ESCALATION` code. -/
theorem evaluateSource_noVE (rt : String → String → Bool)
    (cc : ConversationContext) : noVE (evaluateSource rt cc) := by
  intro r hr
  unfold evaluateSource at hr
  rcases List.mem_append.mp hr with h12 | h3
  · rcases List.mem_append.mp h12 with h1 | h2
    · split at h1
      · rw [List.mem_singleton.mp h1]
        simp
      · exact absurd h1 (List.not_mem_nil r)
    · split at h2
      · rw [List.mem_singleton.mp h2]
        simp
      · exact absurd h2 (List.not_mem_nil r)
  · obtain ⟨call, -, hf⟩ := List.mem_filterMap.mp h3
    split at hf
    · exact Option.noConfusion hf
    · split at hf
      · rw [← Option.some_inj.mp hf]
        simp
      · exact Option.noConfusion hf

/-- A coherence finding is always `INCOHERENT_CONTEXT`. -/
theorem checkCoherence_code {cc : ConversationContext} {r : SecurityReason}
    (h : checkCoherence cc = some r) : r.code = "INCOHERENT_CONTEXT" := by
  simp only [checkCoherence] at h
  split at h
  · exact Option.noConfusion h
  · split at h
    · rw [← Option.some_inj.mp h]
    · exact Option.noConfusion h

/-- Frame of the context-analyzer stage when no transaction has been
decoded yet (its position in the pipeline): transaction, policy and the
(absent) decoded transaction are untouched, the escalation tracker is
returned unchanged, and no `VALUE_ESCALATION` reason is added. -/
theorem contextAnalyzer_frame (rt : String → String → Bool) (now : ℕ)
    (tr : List EscSample) (ctx : EvalCtx) (hdec : ctx.decoded = none) :
    (createContextAnalyzer rt now tr ctx).1.transaction = ctx.transaction ∧
    (createContextAnalyzer rt now tr ctx).1.policy = ctx.policy ∧
    (createContextAnalyzer rt now tr ctx).1.decoded = none ∧
    (createContextAnalyzer rt now tr ctx).2 = tr ∧
    (noVE ctx.reasons → noVE (createContextAnalyzer rt now tr ctx).1.reasons) := by
  unfold createContextAnalyzer
  cases hcc : ctx.conversationContext with
  | none => exact ⟨rfl, rfl, hdec, rfl, fun h => h⟩
  | some cc =>
    simp only [hdec, Option.isSome_none, Bool.false_eq_true, and_false, if_false,
      ite_false]
    refine ⟨trivial, trivial, trivial, trivial, fun hP => ?_⟩
    refine noVE_ite _ ?_ ?_ <;>
      [skip;
       exact noVE_ite _ (noVE_append (noVE_ite _ (noVE_append
         (noVE_append hP (noVE_injA rt cc.messages))
         (noVE_custom rt ctx.policy.contextAnalysis.suspiciousPatterns cc.messages)) hP)
         (evaluateSource_noVE rt cc))
         (noVE_ite _ (noVE_append
           (noVE_append hP (noVE_injA rt cc.messages))
           (noVE_custom rt ctx.policy.contextAnalysis.suspiciousPatterns cc.messages)) hP)]
    cases hch : checkCoherence cc with
    | none =>
      exact noVE_ite _ (noVE_append (noVE_ite _ (noVE_append
        (noVE_append hP (noVE_injA rt cc.messages))
        (noVE_custom rt ctx.policy.contextAnalysis.suspiciousPatterns cc.messages)) hP)
        (evaluateSource_noVE rt cc))
        (noVE_ite _ (noVE_append
          (noVE_append hP (noVE_injA rt cc.messages))
          (noVE_custom rt ctx.policy.contextAnalysis.suspiciousPatterns cc.messages)) hP)
    | some r' =>
      refine noVE_append (noVE_ite _ (noVE_append (noVE_ite _ (noVE_append
        (noVE_append hP (noVE_injA rt cc.messages))
        (noVE_custom rt ctx.policy.contextAnalysis.suspiciousPatterns cc.messages)) hP)
        (evaluateSource_noVE rt cc))
        (noVE_ite _ (noVE_append
          (noVE_append hP (noVE_injA rt cc.messages))
          (noVE_custom rt ctx.policy.contextAnalysis.suspiciousPatterns cc.messages)) hP)) ?_
      intro r hr
      rw [List.mem_singleton.mp hr, checkCoherence_code hch]
      decide

/-- A one-element reason list with a non-escalation code. -/
theorem noVE_singleton {r0 : SecurityReason} (h : r0.code ≠ "VALUE_ESCALATION") :
    noVE [r0] := by
  intro r hr
  rw [List.mem_singleton.mp hr]
  exact h

/-- Frame of the decoder stage: transaction and policy are untouched and
all added reasons carry fixed transaction-analysis codes, never
`VALUE_ESCALATION`. -/
theorem transactionDecoder_frame {ctx ctx' : EvalCtx}
    (h : transactionDecoder ctx = .ok ctx') :
    ctx'.transaction = ctx.transaction ∧ ctx'.policy = ctx.policy ∧
    (noVE ctx.reasons → noVE ctx'.reasons) := by
  unfold transactionDecoder at h
  cases hv : jsBigInt? (ctx.transaction.value.getD "0") with
  | none =>
    rw [hv] at h
    simp [Bind.bind, Except.bind, throw, throwThe, MonadExceptOf.throw] at h
  | some w =>
    rw [hv] at h
    repeat' first
      | split at h
      | simp only [Bind.bind, Except.bind, pure, Except.pure, throw, throwThe,
          MonadExceptOf.throw, Except.ok.injEq] at h
    all_goals first
      | exact Except.noConfusion h
      | (subst h
         refine ⟨rfl, rfl, fun hP => ?_⟩
         first
         | exact hP
         | exact noVE_append hP (noVE_singleton (by simp))
         | exact noVE_append (noVE_append hP (noVE_singleton (by simp)))
             (noVE_singleton (by simp)))

/-- Frame of the value assessor: transaction, policy and reasons are
untouched (it only prices the decoded transaction). -/
theorem valueAssessor_frame {ctx ctx' : EvalCtx}
    (h : shieldValueAssessor ctx = .ok ctx') :
    ctx'.transaction = ctx.transaction ∧ ctx'.policy = ctx.policy ∧
    ctx'.reasons = ctx.reasons := by
  unfold shieldValueAssessor createValueAssessor at h
  cases hv : jsBigInt? (ctx.transaction.value.getD "0") with
  | none =>
    rw [hv] at h
    simp [Bind.bind, Except.bind, throw, throwThe, MonadExceptOf.throw] at h
  | some w =>
    rw [hv] at h
    simp only [Bind.bind, Except.bind, pure, Except.pure] at h
    split at h <;> simp only [Except.ok.injEq] at h <;> subst h <;>
      exact ⟨rfl, rfl, rfl⟩

/-- Frame of the address checker (no reputation provider): transaction,
policy and decoded are untouched; added reasons are address findings,
never `VALUE_ESCALATION`. -/
theorem addressChecker_frame (ctx : EvalCtx) :
    (createAddressChecker none ctx).transaction = ctx.transaction ∧
    (createAddressChecker none ctx).policy = ctx.policy ∧
    (createAddressChecker none ctx).decoded = ctx.decoded ∧
    (noVE ctx.reasons → noVE (createAddressChecker none ctx).reasons) := by
  unfold createAddressChecker
  split
  · refine ⟨rfl, rfl, rfl, fun hP => noVE_append hP ?_⟩
    intro r hr
    rw [List.mem_singleton.mp hr]
    simp
  · refine ⟨rfl, rfl, rfl, fun hP => ?_⟩
    refine noVE_ite _ (noVE_append hP ?_) hP
    intro r hr
    rw [List.mem_singleton.mp hr]
    simp

/-- The behavioral comparator only adds the four anomaly codes, never
`VALUE_ESCALATION`. -/
theorem behavioralComparator_noVE (m : BehavioralModel) (ctx : EvalCtx)
    (hP : noVE ctx.reasons) : noVE (behavioralComparator m ctx).reasons := by
  refine noVE_append hP ?_
  intro r hr
  have hcode := m.findings_codes ctx r hr
  simp only [List.mem_cons, List.not_mem_nil, or_false] at hcode
  rcases hcode with h | h | h | h <;> rw [h] <;> decide

/-- A verdict stored by the policy engine only adds the
`EXCEEDS_TX_LIMIT` code over the accumulated reasons. -/
theorem policyEngine_verdict_noVE {eid ts : String} {ctx c : EvalCtx}
    {v : SecurityVerdict} (h : policyEngine eid ts ctx = .ok c)
    (hv : c.verdict = some v) (hP : noVE ctx.reasons) : noVE v.reasons := by
  unfold policyEngine at h
  cases htx : jsBigInt? (ctx.transaction.value.getD "0") with
  | none =>
    rw [htx] at h
    simp [Bind.bind, Except.bind, throw, throwThe, MonadExceptOf.throw] at h
  | some txv =>
    rw [htx] at h
    cases hmx : jsBigInt? ctx.policy.limits.maxTransactionValueWei with
    | none =>
      rw [hmx] at h
      simp [Bind.bind, Except.bind, pure, Except.pure, throw, throwThe,
        MonadExceptOf.throw] at h
    | some mx =>
      rw [hmx] at h
      simp only [Bind.bind, Except.bind, pure, Except.pure, Except.ok.injEq] at h
      subst h
      simp only [Option.some.injEq] at hv
      subst hv
      by_cases hc : txv > mx
      · rw [if_pos hc]
        refine noVE_append hP ?_
        intro r hr
        rw [List.mem_singleton.mp hr]
        simp
      · rw [if_neg hc]
        exact hP

/-- A successful pipeline run on a fresh context (no decoded transaction,
no accumulated reasons) yields a verdict without `VALUE_ESCALATION` and
returns the escalation tracker unchanged. -/
theorem runPipeline_noVE {env : EvalEnv} {tr : List EscSample} {ctx : EvalCtx}
    {c : EvalCtx} {tr' : List EscSample}
    (h : runPipeline env tr ctx = .ok (c, tr'))
    (hdec : ctx.decoded = none) (hP : noVE ctx.reasons) :
    (∀ v, c.verdict = some v → noVE v.reasons) ∧ tr' = tr := by
  unfold runPipeline at h
  rcases hca : createContextAnalyzer env.regexTest env.now tr ctx with ⟨c1, t1⟩
  rw [hca] at h
  simp only [except_bind_ok, except_pure_ok, createContractChecker,
    Prod.mk.injEq] at h
  obtain ⟨c2, h2, c3, h3, c5, h5, c8, h8, hc, htr⟩ := h
  subst h5
  subst hc
  subst htr
  have hf1 := contextAnalyzer_frame env.regexTest env.now tr ctx hdec
  rw [hca] at hf1
  have hn1 : noVE c1.reasons := hf1.2.2.2.2 hP
  have hn2 : noVE c2.reasons := (transactionDecoder_frame h2).2.2 hn1
  have hn3 : noVE c3.reasons := by
    rw [(valueAssessor_frame h3).2.2]
    exact hn2
  have hn4 : noVE (createAddressChecker none c3).reasons :=
    (addressChecker_frame c3).2.2.2 hn3
  have hn6 : noVE (behavioralComparator env.beh (createAddressChecker none c3)).reasons :=
    behavioralComparator_noVE env.beh _ hn4
  refine ⟨fun v hv => policyEngine_verdict_noVE h8 hv hn6, hf1.2.2.2.1⟩

/-- `checkDailyReset` keeps tracker and policy. -/
theorem checkDailyReset_frame (t : String) (s : ShieldState) :
    (checkDailyReset t s).tracker = s.tracker ∧
    (checkDailyReset t s).policy = s.policy := by
  unfold checkDailyReset
  split <;> exact ⟨rfl, rfl⟩

/-- `updateCounters` keeps tracker and policy. -/
theorem updateCounters_frame (v : SecurityVerdict) (s : ShieldState) :
    (updateCounters v s).tracker = s.tracker ∧
    (updateCounters v s).policy = s.policy := by
  unfold updateCounters
  split
  · exact ⟨rfl, rfl⟩
  · split <;> exact ⟨rfl, rfl⟩

/-- The auto-freeze check keeps tracker and policy. -/
theorem autoFreezeCheck_frame (v : SecurityVerdict) (s : ShieldState) :
    (autoFreezeCheck v s).tracker = s.tracker ∧
    (autoFreezeCheck v s).policy = s.policy := by
  simp only [autoFreezeCheck]
  split
  · split <;> exact ⟨rfl, rfl⟩
  · exact ⟨rfl, rfl⟩

/-- The daily-volume step only ever appends the `DAILY_VOLUME_EXCEEDED`
reason and keeps tracker and policy. -/
theorem dailyVolumeStep_frame {tx : TransactionRequest} {v v' : SecurityVerdict}
    {s s' : ShieldState} (h : dailyVolumeStep tx v s = .ok (v', s')) :
    (noVE v.reasons → noVE v'.reasons) ∧ s'.tracker = s.tracker ∧
    s'.policy = s.policy := by
  unfold dailyVolumeStep at h
  repeat' first
    | split at h
    | simp only [Bind.bind, Except.bind, pure, Except.pure, throw, throwThe,
        MonadExceptOf.throw, Except.ok.injEq, Prod.mk.injEq] at h
  all_goals first
    | exact Except.noConfusion h
    | (obtain ⟨hv', hs'⟩ := h
       subst hv'
       subst hs'
       refine ⟨fun hP => ?_, rfl, rfl⟩
       first
       | exact hP
       | exact noVE_append hP (noVE_singleton (by simp)))

/-- **C9** (code_bug). The claim expects escalating transaction values
(≥ 5× the oldest sample in the 30-minute window) to draw a
`VALUE_ESCALATION` reason; in the code this is impossible: the context
analyzer runs before the decoder, its escalation branch requires an
already-decoded transaction, so no evaluation ever produces a
`VALUE_ESCALATION` reason and the escalation tracker never even acquires
a sample. -/
theorem claim_C9_value_escalation (env : EvalEnv) (tx : TransactionRequest)
    (context : Option ConversationContext) (s : ShieldState)
    (v : SecurityVerdict) (s' : ShieldState)
    (heval : evaluateInternal env tx context s = .ok (v, s')) :
    noVE v.reasons ∧ s'.tracker = s.tracker := by
  by_cases hfz : s.frozen = true
  · unfold evaluateInternal at heval
    rw [if_pos hfz] at heval
    simp only [pure, Except.pure, Except.ok.injEq, Prod.mk.injEq] at heval
    obtain ⟨hv, hs⟩ := heval
    subst hv
    subst hs
    exact ⟨noVE_singleton (by simp), rfl⟩
  · unfold evaluateInternal at heval
    rw [if_neg hfz] at heval
    simp only [except_bind_ok] at heval
    obtain ⟨⟨ctxOut, tracker'⟩, hrp, hrest⟩ := heval
    obtain ⟨pv, hpv⟩ := runPipeline_ok_verdict hrp
    have hrun := runPipeline_noVE hrp rfl (fun r hr => absurd hr (List.not_mem_nil r))
    simp only [hpv, except_bind_ok] at hrest
    obtain ⟨⟨v2, s4⟩, hds, hrest2⟩ := hrest
    simp only [except_pure_ok, Prod.mk.injEq] at hrest2
    obtain ⟨hv2, hs'⟩ := hrest2
    subst hv2
    subst hs'
    have hdf := dailyVolumeStep_frame hds
    constructor
    · exact hdf.1 (hrun.1 pv hpv)
    · rw [(autoFreezeCheck_frame _ _).1]
      show s4.tracker = s.tracker
      rw [hdf.2.1]
      rw [(updateCounters_frame pv _).1]
      show tracker' = s.tracker
      rw [hrun.2]
      show (checkDailyReset env.today s).tracker = s.tracker
      exact (checkDailyReset_frame env.today s).1

/-- A crypto-coherent, trusted conversation context for the escalation
scenario. -/
def cc9 : ConversationContext :=
  { messages := [{ role := "user", content := "please send eth to my wallet" }],
    source := { type := "direct", identifier := "cli", trustLevel := "trusted" } }

/-- The escalation-scenario transaction at a given wei value. -/
def txC9 (v : String) : TransactionRequest :=
  { toAddr := "0x1111111111111111111111111111111111111111", value := some v, chainId := 1 }

/-- The escalation-scenario environment at a given clock. -/
def envC9 (t : ℕ) : EvalEnv :=
  { regexTest := fun _ _ => false, beh := behTrivial, now := t,
    today := "Mon Jan 01 2026", evaluationId := "e", timestamp := "ts" }

/-- The initial shield state of the escalation scenario. -/
def c9state0 : ShieldState :=
  { policy := mkPolicyFixture [mkTierFixture "t-guardian" .guardian (some 0) none],
    dailyVolumeResetDate := "Mon Jan 01 2026" }

/-- First evaluation: $7 at t = 0. -/
def c9step1 : Except String (SecurityVerdict × ShieldState) :=
  evaluateInternal (envC9 0) (txC9 "2000000000000000") (some cc9) c9state0

/-- State after the first evaluation. -/
def c9s1 : ShieldState :=
  match c9step1 with
  | .ok (_, s) => s
  | .error _ => c9state0

/-- Verdict of the first evaluation. -/
def c9v1 : SecurityVerdict :=
  match c9step1 with
  | .ok (v, _) => v
  | .error _ => frozenVerdict "" "" ""

/-- Second evaluation: $21 at t = 10 min. -/
def c9step2 : Except String (SecurityVerdict × ShieldState) :=
  evaluateInternal (envC9 600000) (txC9 "6000000000000000") (some cc9) c9s1

/-- State after the second evaluation. -/
def c9s2 : ShieldState :=
  match c9step2 with
  | .ok (_, s) => s
  | .error _ => c9state0

/-- Verdict of the second evaluation. -/
def c9v2 : SecurityVerdict :=
  match c9step2 with
  | .ok (v, _) => v
  | .error _ => frozenVerdict "" "" ""

/-- Third evaluation: $42 at t = 20 min (6× the first value, well within
the 30-minute window). -/
def c9step3 : Except String (SecurityVerdict × ShieldState) :=
  evaluateInternal (envC9 1200000) (txC9 "12000000000000000") (some cc9) c9s2

/-- State after the third evaluation. -/
def c9s3 : ShieldState :=
  match c9step3 with
  | .ok (_, s) => s
  | .error _ => c9state0

/-- Verdict of the third evaluation. -/
def c9v3 : SecurityVerdict :=
  match c9step3 with
  | .ok (v, _) => v
  | .error _ => frozenVerdict "" "" ""

/-- Witness for C9's theorem at the third escalation-scenario
evaluation. -/
theorem claim_C9_value_escalation_witness :
    noVE c9v3.reasons ∧ c9s3.tracker = c9s2.tracker :=
  claim_C9_value_escalation (envC9 1200000) (txC9 "12000000000000000") (some cc9)
    c9s2 c9v3 c9s3 (by decide)

/-- A decoder context over the scenario policy, for pricing a single
transaction. -/
def c9decCtx (v : String) : EvalCtx :=
  { transaction := txC9 v, policy := c9state0.policy }

/-- The concrete run refuting the claim: the spec's own calibration
scenario (three evaluations with estimated values $7 → $21 → $42 inside
20 minutes, conversation context present, escalation detection enabled)
produces no `VALUE_ESCALATION` reason anywhere and leaves the escalation
tracker empty. -/
theorem claim_C9_value_escalation_failing_input :
    c9step1 = .ok (c9v1, c9s1) ∧
    c9step2 = .ok (c9v2, c9s2) ∧
    c9step3 = .ok (c9v3, c9s3) ∧
    ((transactionDecoder (c9decCtx "2000000000000000")).bind
        shieldValueAssessor).toOption.bind
      (fun c => c.decoded.map (·.estimatedValueUsd)) = some 7 ∧
    ((transactionDecoder (c9decCtx "12000000000000000")).bind
        shieldValueAssessor).toOption.bind
      (fun c => c.decoded.map (·.estimatedValueUsd)) = some 42 ∧
    ((c9v1.reasons ++ c9v2.reasons ++ c9v3.reasons).all
      (fun r => r.code ≠ "VALUE_ESCALATION")) = true ∧
    c9s3.tracker = [] := by
  decide

/-!
## C8 — the shield never raises

Input validation in front of the pipeline rules out every `BigInt`
conversion failure inside the stages (the only modelled exceptions), so
`evaluate` always terminates in a verdict; validation failures produce
the synthetic block verdict.
-/

/-- A validated transaction's value field always converts. -/
theorem validate_none_value {tx : TransactionRequest}
    (h : validateTransactionRequest tx = none) :
    ∃ w, jsBigInt? (tx.value.getD "0") = some w := by
  cases hv : tx.value with
  | none => exact ⟨0, by decide⟩
  | some vstr =>
    cases hp : jsBigInt? vstr with
    | some w =>
      refine ⟨w, ?_⟩
      simpa using hp
    | none =>
      exfalso
      unfold validateTransactionRequest at h
      rw [hv] at h
      simp only [hp] at h
      repeat' split at h
      all_goals exact Option.noConfusion h

/-- A validated transaction's calldata is empty or hex. -/
theorem validate_none_data {tx : TransactionRequest} {d : List Char}
    (h : validateTransactionRequest tx = none) (hd : tx.data = some d) :
    d = [] ∨ isHexData d = true := by
  by_cases hnil : d = []
  · exact Or.inl hnil
  by_cases hhex : isHexData d = true
  · exact Or.inr hhex
  exfalso
  unfold validateTransactionRequest at h
  rw [hd] at h
  simp only [] at h
  repeat' split at h
  all_goals first
    | exact Option.noConfusion h
    | (rename_i hcond
       exact hcond ⟨hnil, hhex⟩)

/-- Chunks produced by the fuelled splitter are nonempty sublists of the
input. -/
theorem chunk64Aux_mem {fuel : ℕ} : ∀ (l p : List Char),
    p ∈ chunk64Aux fuel l → p ≠ [] ∧ ∀ c ∈ p, c ∈ l := by
  induction fuel with
  | zero =>
    intro l p hp
    exact absurd hp (List.not_mem_nil p)
  | succ f ih =>
    intro l p hp
    cases l with
    | nil => exact absurd hp (List.not_mem_nil p)
    | cons c cs =>
      rcases List.mem_cons.mp hp with rfl | hp2
      · constructor
        · intro h0
          rcases List.take_eq_nil_iff.mp h0 with h | h
          · exact absurd h (by decide)
          · exact List.noConfusion h
        · intro ch hch
          exact List.take_subset _ _ hch
      · have hsub := ih ((c :: cs).drop 64) p hp2
        exact ⟨hsub.1, fun ch hch => List.drop_subset _ _ (hsub.2 ch hch)⟩

/-- Every parameter word of hex calldata decodes as a uint256. -/
theorem extractParams_decodeable {d : List Char} (hhex : isHexData d = true) :
    ∀ p ∈ extractParams d, ∃ n, decodeUint256 p = some n := by
  intro p hp
  unfold isHexData at hhex
  split at hhex
  · rename_i rest
    unfold extractParams at hp
    split at hp
    · exact absurd hp (List.not_mem_nil p)
    · unfold chunk64 at hp
      have hmem := chunk64Aux_mem _ p hp
      have hphex : ∀ c ∈ p, isHexDigit c = true := by
        intro c hc
        have h1 : c ∈ ('0' :: 'x' :: rest).drop 10 := hmem.2 c hc
        have h10 : ('0' :: 'x' :: rest).drop 10 = rest.drop 8 := rfl
        rw [h10] at h1
        exact List.all_eq_true.mp hhex c (List.drop_subset _ _ h1)
      rw [decodeUint256, jsBigIntL_hex p hphex, parseDigits?,
        if_pos ⟨hmem.1, List.all_eq_true.mpr hphex⟩]
      exact ⟨_, rfl⟩
  · exact absurd hhex (by decide)

/-- The decoder cannot throw on a validated transaction (value converts,
calldata is empty or hex). -/
theorem transactionDecoder_total {ctx : EvalCtx} {w : ℤ}
    (hv : jsBigInt? (ctx.transaction.value.getD "0") = some w)
    (hdata : ∀ d, ctx.transaction.data = some d → d = [] ∨ isHexData d = true) :
    ∃ ctx', transactionDecoder ctx = .ok ctx' := by
  have hdata2 : ∀ p ∈ extractParams (ctx.transaction.data.getD []),
      ∃ n, decodeUint256 p = some n := by
    intro p hp
    cases hd : ctx.transaction.data with
    | none =>
      rw [hd] at hp
      exact absurd hp (List.not_mem_nil p)
    | some d =>
      rw [hd] at hp
      rcases hdata d hd with rfl | hhex
      · exact absurd hp (List.not_mem_nil p)
      · exact extractParams_decodeable hhex p hp
  unfold transactionDecoder
  rw [hv]
  simp only [Bind.bind, Except.bind, pure, Except.pure]
  cases hsel : decodeSelector (ctx.transaction.data.getD []) with
  | none => exact ⟨_, rfl⟩
  | some si =>
    repeat' first
      | simp only [Bind.bind, Except.bind, pure, Except.pure, throw, throwThe,
          MonadExceptOf.throw]
      | split
    all_goals first
      | exact ⟨_, rfl⟩
      | (exfalso
         rename_i hpar hx hq
         obtain ⟨n, hn⟩ := hdata2 _
           (by rw [hpar]; exact List.mem_cons_of_mem _ (List.mem_cons_self _ _))
         rw [hq] at hn
         exact Option.noConfusion hn)

/-- The value assessor cannot throw when the value converts. -/
theorem valueAssessor_total {ctx : EvalCtx} {w : ℤ}
    (hv : jsBigInt? (ctx.transaction.value.getD "0") = some w) :
    ∃ ctx', shieldValueAssessor ctx = .ok ctx' := by
  unfold shieldValueAssessor createValueAssessor
  rw [hv]
  cases hd : ctx.decoded with
  | none => exact ⟨_, rfl⟩
  | some d => exact ⟨_, rfl⟩

/-- The policy engine cannot throw when the value and the configured
per-transaction limit convert. -/
theorem policyEngine_total (eid ts : String) {ctx : EvalCtx} {w mtx : ℤ}
    (hv : jsBigInt? (ctx.transaction.value.getD "0") = some w)
    (hmtx : jsBigInt? ctx.policy.limits.maxTransactionValueWei = some mtx) :
    ∃ c, policyEngine eid ts ctx = .ok c := by
  unfold policyEngine
  rw [hv, hmtx]
  exact ⟨_, rfl⟩

/-- The daily-volume step cannot throw when the value and the daily
limit convert. -/
theorem dailyVolumeStep_total (tx : TransactionRequest) (v : SecurityVerdict)
    (s : ShieldState) {w mdy : ℤ}
    (hv : jsBigInt? (tx.value.getD "0") = some w)
    (hmdy : jsBigInt? s.policy.limits.maxDailyVolumeWei = some mdy) :
    ∃ out, dailyVolumeStep tx v s = .ok out := by
  unfold dailyVolumeStep
  split
  · simp only [hv, hmdy, Bind.bind, Except.bind, pure, Except.pure]
    split <;> exact ⟨_, rfl⟩
  · exact ⟨_, rfl⟩

/-- The pipeline cannot throw on a validated transaction under a policy
whose limit strings convert. -/
theorem runPipeline_total (env : EvalEnv) (tr : List EscSample) (ctx : EvalCtx)
    {w mtx : ℤ}
    (hv : jsBigInt? (ctx.transaction.value.getD "0") = some w)
    (hdata : ∀ d, ctx.transaction.data = some d → d = [] ∨ isHexData d = true)
    (hmtx : jsBigInt? ctx.policy.limits.maxTransactionValueWei = some mtx)
    (hdec : ctx.decoded = none) :
    ∃ out, runPipeline env tr ctx = .ok out := by
  rcases hca : createContextAnalyzer env.regexTest env.now tr ctx with ⟨c1, t1⟩
  have hf1 := contextAnalyzer_frame env.regexTest env.now tr ctx hdec
  rw [hca] at hf1
  have hft : c1.transaction = ctx.transaction := hf1.1
  have hfp : c1.policy = ctx.policy := hf1.2.1
  have hv1 : jsBigInt? (c1.transaction.value.getD "0") = some w := by
    rw [hft]; exact hv
  have hdata1 : ∀ d, c1.transaction.data = some d → d = [] ∨ isHexData d = true := by
    intro d hd
    rw [hft] at hd
    exact hdata d hd
  obtain ⟨c2, h2⟩ := transactionDecoder_total hv1 hdata1
  have hfd := transactionDecoder_frame h2
  have hv2 : jsBigInt? (c2.transaction.value.getD "0") = some w := by
    rw [hfd.1]; exact hv1
  obtain ⟨c3, h3⟩ := valueAssessor_total hv2
  have hfv := valueAssessor_frame h3
  have haddr := addressChecker_frame c3
  have htr7 : (riskAggregator (behavioralComparator env.beh
      (createAddressChecker none c3))).transaction = c3.transaction := haddr.1
  have hpol7 : (riskAggregator (behavioralComparator env.beh
      (createAddressChecker none c3))).policy = c3.policy := haddr.2.1
  have hv7 : jsBigInt? ((riskAggregator (behavioralComparator env.beh
      (createAddressChecker none c3))).transaction.value.getD "0") = some w := by
    rw [htr7, hfv.1]; exact hv2
  have hmtx7 : jsBigInt? ((riskAggregator (behavioralComparator env.beh
      (createAddressChecker none c3))).policy.limits.maxTransactionValueWei) =
      some mtx := by
    rw [hpol7, hfv.2.1, hfd.2.1, hfp]; exact hmtx
  obtain ⟨c8, h8⟩ := policyEngine_total env.evaluationId env.timestamp hv7 hmtx7
  refine ⟨(c8, t1), ?_⟩
  unfold runPipeline
  rw [hca]
  simp only [h2, h3, h8, createContractChecker, Bind.bind, Except.bind, pure,
    Except.pure]

/-- The core evaluation cannot throw on a validated transaction under a
policy whose global-limit strings convert. -/
theorem evaluateInternal_total (env : EvalEnv) (tx : TransactionRequest)
    (context : Option ConversationContext) (s : ShieldState) {w mtx mdy : ℤ}
    (hv : jsBigInt? (tx.value.getD "0") = some w)
    (hdata : ∀ d, tx.data = some d → d = [] ∨ isHexData d = true)
    (hmtx : jsBigInt? s.policy.limits.maxTransactionValueWei = some mtx)
    (hmdy : jsBigInt? s.policy.limits.maxDailyVolumeWei = some mdy) :
    ∃ out, evaluateInternal env tx context s = .ok out := by
  by_cases hfz : s.frozen = true
  · unfold evaluateInternal
    rw [if_pos hfz]
    exact ⟨_, rfl⟩
  · unfold evaluateInternal
    rw [if_neg hfz]
    simp only []
    have hmtx1 : jsBigInt? (checkDailyReset env.today
        s).policy.limits.maxTransactionValueWei = some mtx := by
      rw [(checkDailyReset_frame env.today s).2]
      exact hmtx
    have hmdy1 : jsBigInt? (checkDailyReset env.today
        s).policy.limits.maxDailyVolumeWei = some mdy := by
      rw [(checkDailyReset_frame env.today s).2]
      exact hmdy
    obtain ⟨⟨cOut, trOut⟩, hrp⟩ :=
      runPipeline_total env (checkDailyReset env.today s).tracker
        { transaction := tx, conversationContext := context,
          policy := (checkDailyReset env.today s).policy }
        hv hdata hmtx1 rfl
    rw [hrp]
    simp only [Bind.bind, Except.bind]
    cases hcv : cOut.verdict with
    | none => exact ⟨_, rfl⟩
    | some pv =>
      have hmdy3 : jsBigInt? (updateCounters pv
          { checkDailyReset env.today s with
              evaluationCount := (checkDailyReset env.today s).evaluationCount + 1,
              tracker := trOut }).policy.limits.maxDailyVolumeWei = some mdy := by
        rw [(updateCounters_frame pv _).2]
        exact hmdy1
      obtain ⟨⟨v2, s5⟩, hds⟩ :=
        dailyVolumeStep_total tx pv
          (updateCounters pv
            { checkDailyReset env.today s with
                evaluationCount := (checkDailyReset env.today s).evaluationCount + 1,
                tracker := trOut })
          hv hmdy3
      simp only [] at hds
      simp only []
      rw [hds]
      exact ⟨_, rfl⟩

/-- **C8** (confirmed, spec-modelled wrapper). Under a policy whose
global-limit strings convert, `evaluate` never raises: it always
returns a verdict, and when input validation fails (malformed address,
bad value, malformed calldata hex) the result is the synthetic block
verdict with exactly one high-severity policy reason, on the unchanged
state. -/
theorem claim_C8_never_raises (env : EvalEnv) (tx : TransactionRequest)
    (context : Option ConversationContext) (s : ShieldState) (mtx mdy : ℤ)
    (hmtx : jsBigInt? s.policy.limits.maxTransactionValueWei = some mtx)
    (hmdy : jsBigInt? s.policy.limits.maxDailyVolumeWei = some mdy) :
    (∃ out, wardexEvaluate env tx context s = .ok out) ∧
    ∀ err, validateTransactionRequest tx = some err →
      wardexEvaluate env tx context s =
        .ok (invalidInputVerdict err env.evaluationId env.timestamp, s) ∧
      (invalidInputVerdict err env.evaluationId env.timestamp).decision = .block ∧
      ∃ r, (invalidInputVerdict err env.evaluationId env.timestamp).reasons = [r] ∧
        r.severity = .high ∧ r.source = .policy := by
  constructor
  · cases hval : validateTransactionRequest tx with
    | some err =>
      unfold wardexEvaluate
      rw [hval]
      exact ⟨_, rfl⟩
    | none =>
      obtain ⟨w, hw⟩ := validate_none_value hval
      obtain ⟨out, hout⟩ := evaluateInternal_total env tx context s hw
        (fun d hd => validate_none_data hval hd) hmtx hmdy
      refine ⟨out, ?_⟩
      unfold wardexEvaluate
      rw [hval]
      exact hout
  · intro err herr
    refine ⟨?_, rfl, _, rfl, rfl, rfl⟩
    unfold wardexEvaluate
    rw [herr]

/-- Witness for C8 at concrete inputs: a malformed address yields the
synthetic block verdict; evaluation succeeds either way. -/
theorem claim_C8_never_raises_witness :
    (∃ out, wardexEvaluate envFixture { toAddr := "bogus" } none shieldFixture =
      .ok out) ∧
    wardexEvaluate envFixture { toAddr := "bogus" } none shieldFixture =
      .ok (invalidInputVerdict
        ("Invalid \x22to\x22 address: \x22bogus\x22 is not a valid Ethereum address (expected 0x + 40 hex chars)")
        envFixture.evaluationId envFixture.timestamp, shieldFixture) :=
  ⟨(claim_C8_never_raises envFixture { toAddr := "bogus" } none shieldFixture
      (10 ^ 20) (10 ^ 21) (by decide) (by decide)).1,
   ((claim_C8_never_raises envFixture { toAddr := "bogus" } none shieldFixture
      (10 ^ 20) (10 ^ 21) (by decide) (by decide)).2 _ (by decide)).1⟩

end Wardex
